import Mathlib

/-!
Shallow embedding of the trajectory-simulation engine of the
Engineers-of-Aggravated-Peace ballistic calculators.

Sources embedded here:
- `src/deepseek_python_20250710_97028b.py` (drag tables, `interpolate_curve`,
  `Projectile`, `Environment.calculate_air_density`, `_calculate_trajectory`);
- `src/v344.py` (`Projectile.get_thrust`, which lacks the empty-curve guard);
- `src/unnamed/part_000` (`ISA_TABLE`, `Environment.isa_interp`);
- `src/hopev3.py` (`calculate_air_density` with the `max(0.1, rho)` floor).

Numbers are modelled as elements of a linear ordered field (instantiated at ℚ
for executable facts and at ℝ where the code calls transcendental library
functions).  Python float division that can raise `ZeroDivisionError`, and
indexing that can raise, are modelled by `Option`-returning variants (suffix
`?`); the plain variants use Lean's total division and are used inside the
integrator.  Python's `sorted` (a stable sort by a total order, hence with a
uniquely determined output list) is modelled by `List.insertionSort`.
-/

set_option maxHeartbeats 1000000

/-- Gravitational constant `GRAVITY = 9.80665` shared by the variants. -/
def GRAVITY : ℝ := 9.80665

/-- Earth rotation rate `EARTH_ROTATION_RATE = 7.292115e-5` (rad/s). -/
def EARTH_ROTATION_RATE : ℝ := 0.00007292115

/-- Python `clamp(val, vmin, vmax) = max(vmin, min(val, vmax))`. -/
def clamp {α : Type} [LinearOrderedField α] (val vmin vmax : α) : α :=
  max vmin (min val vmax)

/-- Python `linear_interpolate`: guarded linear interpolation between two points. -/
def linear_interpolate {α : Type} [LinearOrderedField α] (x x0 x1 y0 y1 : α) : α :=
  if x1 = x0 then y0 else y0 + (y1 - y0) * (x - x0) / (x1 - x0)

/-- Division as Python performs it on floats: `none` models `ZeroDivisionError`. -/
def div? {α : Type} [LinearOrderedField α] (a b : α) : Option α :=
  if b = 0 then none else some (a / b)

/-- Exception-aware `linear_interpolate` (its division is reached only when
`x1 ≠ x0`, so it never actually fails). -/
def linear_interpolate? {α : Type} [LinearOrderedField α] (x x0 x1 y0 y1 : α) : Option α :=
  if x1 = x0 then some y0 else (div? ((y1 - y0) * (x - x0)) (x1 - x0)).map (fun q => y0 + q)

/-- Lexicographic order on pairs, as Python compares tuples in `sorted(curve)`. -/
def pairLex {α : Type} [LinearOrderedField α] (p q : α × α) : Prop :=
  p.1 < q.1 ∨ (p.1 = q.1 ∧ p.2 ≤ q.2)

instance {α : Type} [LinearOrderedField α] : DecidableRel (pairLex (α := α)) :=
  fun p q => by unfold pairLex; infer_instance

instance {α : Type} [LinearOrderedField α] : IsTrans (α × α) (pairLex (α := α)) where
  trans p q r hpq hqr := by
    rcases hpq with h | ⟨h1, h2⟩ <;> rcases hqr with h' | ⟨h1', h2'⟩
    · exact Or.inl (lt_trans h h')
    · exact Or.inl (h1' ▸ h)
    · exact Or.inl (h1 ▸ h')
    · exact Or.inr ⟨h1.trans h1', h2.trans h2'⟩

instance {α : Type} [LinearOrderedField α] : IsTotal (α × α) (pairLex (α := α)) where
  total p q := by
    rcases lt_trichotomy p.1 q.1 with h | h | h
    · exact Or.inl (Or.inl h)
    · rcases le_total p.2 q.2 with h2 | h2
      · exact Or.inl (Or.inr ⟨h, h2⟩)
      · exact Or.inr (Or.inr ⟨h.symm, h2⟩)
    · exact Or.inr (Or.inl h)

/-- Python `sorted` on a list of `(velocity, Cd)` pairs. -/
def sortPairs {α : Type} [LinearOrderedField α] (c : List (α × α)) : List (α × α) :=
  c.insertionSort pairLex

/-- Scan of the `for i in range(1, len(xs))` loop of `interpolate_curve`:
`prev` is `(xs[i-1], ys[i-1])`; falling off the loop returns `ys[-1]`,
which at that moment is `prev.2`. -/
def interpGo {α : Type} [LinearOrderedField α] (x : α) : α × α → List (α × α) → α
  | prev, [] => prev.2
  | prev, q :: rest =>
    if x < q.1 then linear_interpolate x prev.1 q.1 prev.2 q.2 else interpGo x q rest

/-- Python `interpolate_curve(x, curve)` of the deepseek variant (shared by
`part_000`): `<2`-point curves return the single value or `0`; otherwise the
curve is sorted, clamped at the ends or linearly interpolated. -/
def interpolate_curve {α : Type} [LinearOrderedField α] (x : α) (curve : List (α × α)) : α :=
  match curve with
  | [] => 0
  | [p] => p.2
  | _ :: _ :: _ =>
    match sortPairs curve with
    | [] => 0
    | p :: rest =>
      if x ≤ p.1 then p.2
      else if (rest.getLastD p).1 ≤ x then (rest.getLastD p).2
      else interpGo x p rest

/-- Exception-aware scan of the interpolation loop. -/
def interpGo? {α : Type} [LinearOrderedField α] (x : α) : α × α → List (α × α) → Option α
  | prev, [] => some prev.2
  | prev, q :: rest =>
    if x < q.1 then linear_interpolate? x prev.1 q.1 prev.2 q.2 else interpGo? x q rest

/-- Exception-aware `interpolate_curve`. -/
def interpolate_curve? {α : Type} [LinearOrderedField α] (x : α) (curve : List (α × α)) :
    Option α :=
  match curve with
  | [] => some 0
  | [p] => some p.2
  | _ :: _ :: _ =>
    match sortPairs curve with
    | [] => some 0
    | p :: rest =>
      if x ≤ p.1 then some p.2
      else if (rest.getLastD p).1 ≤ x then some (rest.getLastD p).2
      else interpGo? x p rest

/-- Drag table `DragModel.G1` (Mach = velocity / 343, descending strict thresholds). -/
def DragModel.G1 {α : Type} [LinearOrderedField α] (velocity : α) : α :=
  let mach := velocity / 343
  if mach > 4 then 0.45 else if mach > 3 then 0.42 else if mach > 2.5 then 0.40
  else if mach > 2 then 0.38 else if mach > 1.5 then 0.35 else if mach > 1.2 then 0.33
  else if mach > 1 then 0.31 else if mach > 0.9 then 0.30 else if mach > 0.8 then 0.29
  else if mach > 0.7 then 0.28 else if mach > 0.6 then 0.27 else 0.25

/-- Drag table `DragModel.G7`. -/
def DragModel.G7 {α : Type} [LinearOrderedField α] (velocity : α) : α :=
  let mach := velocity / 343
  if mach > 4 then 0.38 else if mach > 3 then 0.36 else if mach > 2.5 then 0.34
  else if mach > 2 then 0.32 else if mach > 1.5 then 0.30 else if mach > 1.2 then 0.28
  else if mach > 1 then 0.26 else if mach > 0.9 then 0.25 else if mach > 0.8 then 0.24
  else if mach > 0.7 then 0.23 else if mach > 0.6 then 0.22 else 0.21

/-- Drag table `DragModel.rocket`. -/
def DragModel.rocket {α : Type} [LinearOrderedField α] (velocity : α) : α :=
  let mach := velocity / 343
  if mach > 3 then 0.50 else if mach > 2 then 0.45 else if mach > 1.5 then 0.40
  else if mach > 1 then 0.35 else if mach > 0.8 then 0.30 else 0.25

/-- Drag table `DragModel.mortar`. -/
def DragModel.mortar {α : Type} [LinearOrderedField α] (velocity : α) : α :=
  let mach := velocity / 343
  if mach > 1.5 then 0.55 else if mach > 1 then 0.50 else if mach > 0.8 then 0.45 else 0.40

/-- Custom drag model: `DragModel.custom = interpolate_curve`. -/
def DragModel.custom {α : Type} [LinearOrderedField α] (velocity : α)
    (curve : List (α × α)) : α :=
  interpolate_curve velocity curve

/-- The `Projectile` instance state of the deepseek variant.  A Python
`thrust_curve` dict `{time: thrust}` is modelled as an association list with
distinct keys. -/
structure Projectile (α : Type) where
  mass : α
  diameter : α
  drag_model : String
  velocity : α
  area : α
  projectile_type : String
  thrust_curve : List (α × α)
  burn_time : α
  initial_mass : α
  custom_drag_curve : Option (List (α × α))

/-- The deepseek `Projectile.__init__`: stores `area = π·(diameter/2)²` and
sets `initial_mass` to the constructor's `mass` argument. -/
noncomputable def Projectile.make (mass diameter : ℝ) (drag_model : String) (velocity : ℝ)
    (projectile_type : String) (thrust_curve : List (ℝ × ℝ)) (burn_time : ℝ)
    (custom_drag_curve : Option (List (ℝ × ℝ))) : Projectile ℝ :=
  ⟨mass, diameter, drag_model, velocity, Real.pi * (diameter / 2) ^ 2, projectile_type,
   thrust_curve, burn_time, mass, custom_drag_curve⟩

/-- Python `Projectile.drag_coefficient`: string dispatch over the drag model;
an empty or absent custom curve is falsy in Python, so it falls to the 0.3
default. -/
def drag_coefficient {α : Type} [LinearOrderedField α] (p : Projectile α) (velocity : α) : α :=
  if p.drag_model = "G1" then DragModel.G1 velocity
  else if p.drag_model = "G7" then DragModel.G7 velocity
  else if p.drag_model = "rocket" then DragModel.rocket velocity
  else if p.drag_model = "mortar" then DragModel.mortar velocity
  else if p.drag_model = "Custom" then
    match p.custom_drag_curve with
    | some (q :: rest) => DragModel.custom velocity (q :: rest)
    | _ => 0.3
  else 0.3

/-- Exception-aware `Projectile.drag_coefficient` (it has no throw sites, but
the variant makes the absence of exceptions explicit). -/
def drag_coefficient? {α : Type} [LinearOrderedField α] (p : Projectile α) (velocity : α) :
    Option α :=
  if p.drag_model = "G1" then some (DragModel.G1 velocity)
  else if p.drag_model = "G7" then some (DragModel.G7 velocity)
  else if p.drag_model = "rocket" then some (DragModel.rocket velocity)
  else if p.drag_model = "mortar" then some (DragModel.mortar velocity)
  else if p.drag_model = "Custom" then
    match p.custom_drag_curve with
    | some (q :: rest) => interpolate_curve? velocity (q :: rest)
    | _ => some 0.3
  else some 0.3

/-- Python dict access `curve[k]` (total variant with junk default `0`). -/
def dictGet {α : Type} [LinearOrderedField α] (c : List (α × α)) (k : α) : α :=
  ((c.find? fun q => decide (q.1 = k)).map Prod.snd).getD 0

/-- Python dict access `curve[k]`; `none` models `KeyError`. -/
def dictGet? {α : Type} [LinearOrderedField α] (c : List (α × α)) (k : α) : Option α :=
  (c.find? fun q => decide (q.1 = k)).map Prod.snd

/-- Python `sorted(thrust_curve.keys())`. -/
def sortKeys {α : Type} [LinearOrderedField α] (c : List (α × α)) : List α :=
  (c.map Prod.fst).insertionSort (fun a b => a ≤ b)

/-- Scan of the `for i in range(1, len(times))` loop of `get_thrust`: at
`time ≤ times[i]` it interpolates between the dict values at `times[i-1]` and
`times[i]`; falling off the loop returns `0`. -/
def thrustGo {α : Type} [LinearOrderedField α] (c : List (α × α)) (time : α) :
    α → List α → α
  | _, [] => 0
  | t0, t1 :: rest =>
    if time ≤ t1 then dictGet c t0 + (dictGet c t1 - dictGet c t0) * (time - t0) / (t1 - t0)
    else thrustGo c time t1 rest

/-- Python `Projectile.get_thrust` of the deepseek variant (guards the empty
curve with `if not times: return 0`). -/
def get_thrust {α : Type} [LinearOrderedField α] (p : Projectile α) (time : α) : α :=
  if time > p.burn_time then 0
  else
    match sortKeys p.thrust_curve with
    | [] => 0
    | t0 :: rest =>
      if time ≤ t0 then dictGet p.thrust_curve t0
      else if rest.getLastD t0 ≤ time then dictGet p.thrust_curve (rest.getLastD t0)
      else thrustGo p.thrust_curve time t0 rest

/-- Exception-aware scan of the `get_thrust` interpolation loop. -/
def thrustGo? {α : Type} [LinearOrderedField α] (c : List (α × α)) (time : α) :
    α → List α → Option α
  | _, [] => some 0
  | t0, t1 :: rest =>
    if time ≤ t1 then
      (dictGet? c t0).bind fun f0 =>
        (dictGet? c t1).bind fun f1 =>
          (div? ((f1 - f0) * (time - t0)) (t1 - t0)).map fun q => f0 + q
    else thrustGo? c time t1 rest

/-- Exception-aware `Projectile.get_thrust` of the deepseek variant. -/
def get_thrust? {α : Type} [LinearOrderedField α] (p : Projectile α) (time : α) : Option α :=
  if time > p.burn_time then some 0
  else
    match sortKeys p.thrust_curve with
    | [] => some 0
    | t0 :: rest =>
      if time ≤ t0 then dictGet? p.thrust_curve t0
      else if rest.getLastD t0 ≤ time then dictGet? p.thrust_curve (rest.getLastD t0)
      else thrustGo? p.thrust_curve time t0 rest

/-- Exception-aware `Projectile.get_thrust` of the v344 variant: it has no
`if not times: return 0` guard, so `times[0]` on an empty curve raises
`IndexError`, modelled as `none`. -/
def get_thrustV344? {α : Type} [LinearOrderedField α] (p : Projectile α) (time : α) :
    Option α :=
  if time > p.burn_time then some 0
  else
    match sortKeys p.thrust_curve with
    | [] => none
    | t0 :: rest =>
      if time ≤ t0 then dictGet? p.thrust_curve t0
      else if rest.getLastD t0 ≤ time then dictGet? p.thrust_curve (rest.getLastD t0)
      else thrustGo? p.thrust_curve time t0 rest

/-- Python `Projectile.get_mass` of the deepseek/v344 variants, with Lean's
total division (`time / 0 = 0`); see `get_mass?` for the exception-aware
variant. -/
def get_mass {α : Type} [LinearOrderedField α] (p : Projectile α) (time : α) : α :=
  if p.projectile_type ≠ "rocket" ∨ time > p.burn_time then p.mass
  else p.initial_mass - (p.initial_mass - p.mass) * (time / p.burn_time)

/-- Exception-aware `Projectile.get_mass`: `time / burn_time` raises
`ZeroDivisionError` when `burn_time = 0` is reached (rocket with
`time ≤ burn_time`). -/
def get_mass? {α : Type} [LinearOrderedField α] (p : Projectile α) (time : α) : Option α :=
  if p.projectile_type ≠ "rocket" ∨ time > p.burn_time then some p.mass
  else (div? time p.burn_time).map fun r => p.initial_mass - (p.initial_mass - p.mass) * r

/-- Python `Environment.calculate_air_density` of the deepseek variant,
over ℝ (`10**x` is real exponentiation, `math.exp` is `Real.exp`).  No floor
is applied to the result. -/
noncomputable def calculate_air_densityR (altitude temperature pressure humidity : ℝ) : ℝ :=
  let temp_kelvin := temperature + 273.15
  let svp := 6.1078 * (10 : ℝ) ^ ((7.5 * temperature) / (temperature + 237.3))
  let vp := svp * humidity / 100
  (pressure * 100) / (287.058 * temp_kelvin) * (1 - 0.378 * vp / (pressure * 100)) *
    Real.exp (-altitude / 10000)

/-- Exception-aware `Environment.calculate_air_density` (deepseek variant),
parametric in the total library functions `10**·` and `math.exp`. -/
def calculate_air_density? {α : Type} [LinearOrderedField α] (pow10 expF : α → α)
    (altitude temperature pressure humidity : α) : Option α :=
  let temp_kelvin := temperature + 273.15
  (div? (7.5 * temperature) (temperature + 237.3)).bind fun e =>
    let svp := 6.1078 * pow10 e
    let vp := svp * humidity / 100
    (div? (pressure * 100) (287.058 * temp_kelvin)).bind fun d1 =>
      (div? (0.378 * vp) (pressure * 100)).map fun d2 =>
        d1 * (1 - d2) * expF (-altitude / 10000)

/-- Air-density computation of the hopev3 variant, the only one that floors its
result (`max(0.1, rho)`).  Constants `GAS_CONSTANT = 287.05` and
`AIR_MOLAR_MASS = 0.0289644` are hopev3's.  Its `try/except` fallback to 1.225
has no counterpart here: every expression below is total over ℝ. -/
noncomputable def hopev3_air_density (temp pressure humidity altitude : ℝ) : ℝ :=
  let lapse_rate := 0.0065
  let temp_alt := temp - lapse_rate * altitude
  let pressure_alt := pressure *
    (1 - lapse_rate * altitude / temp) ^ (GRAVITY * 0.0289644 / (287.05 * lapse_rate))
  let saturation_pressure := 610.78 * Real.exp (17.2694 * (temp_alt - 273.15) / (temp_alt - 35.86))
  let vapor_pressure := humidity / 100 * saturation_pressure
  let rho := (pressure_alt - vapor_pressure) / (287.05 * temp_alt) +
    vapor_pressure / (461.495 * temp_alt)
  max 0.1 rho

/-- The fixed `(altitude, °C, hPa)` ISA breakpoint table of `part_000`. -/
def ISA_TABLE : List (ℚ × ℚ × ℚ) :=
  [(0, 15.0, 1013.25), (1000, 8.5, 898.76), (2000, 2.0, 794.98),
   (3000, -4.5, 701.12), (4000, -11.0, 616.60), (5000, -17.5, 540.19),
   (6000, -24.0, 471.82), (7000, -30.5, 410.55), (8000, -37.0, 356.51),
   (9000, -43.5, 308.78), (10000, -50.0, 265.00)]

/-- Scan of the `for i in range(1, len(ISA_TABLE))` loop of `isa_interp`:
interpolates between `prev` and the first entry whose altitude exceeds `alt`;
falling off the loop returns the last entry's values. -/
def isaGo (alt : ℚ) : ℚ × ℚ × ℚ → List (ℚ × ℚ × ℚ) → ℚ × ℚ
  | prev, [] => (prev.2.1, prev.2.2)
  | prev, e :: rest =>
    if alt < e.1 then
      ((alt - prev.1) / (e.1 - prev.1) * (e.2.1 - prev.2.1) + prev.2.1,
       (alt - prev.1) / (e.1 - prev.1) * (e.2.2 - prev.2.2) + prev.2.2)
    else isaGo alt e rest

/-- Python `Environment.isa_interp` of `part_000`. -/
def isa_interp (alt : ℚ) : ℚ × ℚ :=
  match ISA_TABLE with
  | [] => (0, 0)
  | e :: rest => isaGo alt e rest

/-- In `part_000`'s `calculate_air_density`, dynamic-air mode substitutes the
ISA-interpolated temperature and pressure for the stored ones. -/
def part000_temp_pressure (dynamic_air : Bool) (altitude temperature pressure : ℚ) : ℚ × ℚ :=
  if dynamic_air then isa_interp altitude else (temperature, pressure)

/-- Python `math.hypot`. -/
noncomputable def hypot (x y : ℝ) : ℝ := Real.sqrt (x ^ 2 + y ^ 2)

/-- Python `math.radians`. -/
noncomputable def radians (x : ℝ) : ℝ := x * Real.pi / 180

/-- Python `math.atan2(y, x)`, the angle of the point `(x, y)`. -/
noncomputable def atan2 (y x : ℝ) : ℝ := Complex.arg ⟨x, y⟩

/-- The Coriolis parameter `2·Ω·sin(radians(latitude))` of the deepseek
derivative. -/
noncomputable def coriolis_param (latitude : ℝ) : ℝ :=
  2 * EARTH_ROTATION_RATE * Real.sin (radians latitude)

/-- The integrator state list `[x, y, vx, vy]`; a derivative value reuses the
same shape as `[dx, dy, dvx, dvy] = [vx, vy, ax, ay]`, exactly as the Python
code zips the two lists together. -/
structure St where
  x : ℝ
  y : ℝ
  vx : ℝ
  vy : ℝ

/-- One appended trajectory tuple `(x, y, t, vx, vy, speed)`. -/
structure Sample where
  x : ℝ
  y : ℝ
  t : ℝ
  vx : ℝ
  vy : ℝ
  speed : ℝ

/-- The nested `derivative(s, t)` of the deepseek `_calculate_trajectory`:
drag (special-cased at zero relative velocity), gravity, thrust while a rocket
burns (aimed along the launch angle at `t = 0`, else along `atan2(vy, vx)`),
and the planar Coriolis terms. -/
noncomputable def derivative (p : Projectile ℝ) (air_density wind_x wind_y : ℝ)
    (coriolis : Bool) (latitude angle_rad : ℝ) (s : St) (t : ℝ) : St :=
  let v_rel_x := s.vx - wind_x
  let v_rel_y := s.vy - wind_y
  let v_rel := hypot v_rel_x v_rel_y
  let drag_coeff := drag_coefficient p v_rel
  let drag_force := 0.5 * air_density * v_rel ^ 2 * drag_coeff * p.area
  let ax0 := if v_rel > 0 then -(drag_force * v_rel_x) / (get_mass p t * v_rel) else 0
  let ay0 := if v_rel > 0 then -GRAVITY - drag_force * v_rel_y / (get_mass p t * v_rel)
             else -GRAVITY
  let thrust_angle := if t = 0 then angle_rad else atan2 s.vy s.vx
  let ax1 := if p.projectile_type = "rocket" ∧ t < p.burn_time then
               ax0 + get_thrust p t * Real.cos thrust_angle / get_mass p t
             else ax0
  let ay1 := if p.projectile_type = "rocket" ∧ t < p.burn_time then
               ay0 + get_thrust p t * Real.sin thrust_angle / get_mass p t
             else ay0
  let ax2 := if coriolis = true then ax1 + coriolis_param latitude * s.vy else ax1
  let ay2 := if coriolis = true then ay1 - coriolis_param latitude * s.vx else ay1
  ⟨s.vx, s.vy, ax2, ay2⟩

/-- The derivative without its thrust step (drag, gravity and Coriolis only),
used to state what the thrust branch adds. -/
noncomputable def derivative_nothrust (p : Projectile ℝ) (air_density wind_x wind_y : ℝ)
    (coriolis : Bool) (latitude : ℝ) (s : St) (t : ℝ) : St :=
  let v_rel_x := s.vx - wind_x
  let v_rel_y := s.vy - wind_y
  let v_rel := hypot v_rel_x v_rel_y
  let drag_coeff := drag_coefficient p v_rel
  let drag_force := 0.5 * air_density * v_rel ^ 2 * drag_coeff * p.area
  let ax0 := if v_rel > 0 then -(drag_force * v_rel_x) / (get_mass p t * v_rel) else 0
  let ay0 := if v_rel > 0 then -GRAVITY - drag_force * v_rel_y / (get_mass p t * v_rel)
             else -GRAVITY
  let ax2 := if coriolis = true then ax0 + coriolis_param latitude * s.vy else ax0
  let ay2 := if coriolis = true then ay0 - coriolis_param latitude * s.vx else ay0
  ⟨s.vx, s.vy, ax2, ay2⟩

/-- Python `[s + c * k for s, k in zip(state, ki)]`. -/
def stAxpy (c : ℝ) (s k : St) : St :=
  ⟨s.x + c * k.x, s.y + c * k.y, s.vx + c * k.vx, s.vy + c * k.vy⟩

/-- One classical RK4 update of the deepseek loop body. -/
noncomputable def rk4 (p : Projectile ℝ) (air_density wind_x wind_y : ℝ) (coriolis : Bool)
    (latitude angle_rad : ℝ) (s : St) (t dt : ℝ) : St :=
  let k1 := derivative p air_density wind_x wind_y coriolis latitude angle_rad s t
  let k2 := derivative p air_density wind_x wind_y coriolis latitude angle_rad
    (stAxpy (0.5 * dt) s k1) (t + 0.5 * dt)
  let k3 := derivative p air_density wind_x wind_y coriolis latitude angle_rad
    (stAxpy (0.5 * dt) s k2) (t + 0.5 * dt)
  let k4 := derivative p air_density wind_x wind_y coriolis latitude angle_rad
    (stAxpy dt s k3) (t + dt)
  ⟨s.x + dt / 6 * (k1.x + 2 * k2.x + 2 * k3.x + k4.x),
   s.y + dt / 6 * (k1.y + 2 * k2.y + 2 * k3.y + k4.y),
   s.vx + dt / 6 * (k1.vx + 2 * k2.vx + 2 * k3.vx + k4.vx),
   s.vy + dt / 6 * (k1.vy + 2 * k2.vy + 2 * k3.vy + k4.vy)⟩

/-- The adaptive step of the deepseek loop with its default bounds
`min_time_step = 0.001`, `max_time_step = 0.1` (the GUI callers never override
them): `max(0.001, min(0.1, 0.1 * (1000 / max(100, |v|))))`. -/
noncomputable def timeStep (s : St) : ℝ :=
  max 0.001 (min 0.1 (0.1 * (1000 / max 100 (hypot s.vx s.vy))))

/-- The `while state[1] >= 0 and time < 120` loop of the deepseek
`_calculate_trajectory`: appends the pre-update sample, then advances state
and time by one RK4 step.  It terminates because each step advances time by
at least `0.001`. -/
noncomputable def trajLoop (p : Projectile ℝ) (air_density wind_x wind_y : ℝ)
    (coriolis : Bool) (latitude angle_rad : ℝ) : St → ℝ → List Sample
  | s, t =>
    if h : s.y ≥ 0 ∧ t < 120 then
      ⟨s.x, s.y, t, s.vx, s.vy, hypot s.vx s.vy⟩ ::
        trajLoop p air_density wind_x wind_y coriolis latitude angle_rad
          (rk4 p air_density wind_x wind_y coriolis latitude angle_rad s t (timeStep s))
          (t + timeStep s)
    else []
termination_by s t => (120000 - ⌊1000 * t⌋).toNat
decreasing_by
  have hdt : (0.001 : ℝ) ≤ timeStep s := le_max_left _ _
  have h1 : ⌊1000 * t⌋ + 1 ≤ ⌊1000 * (t + timeStep s)⌋ := by
    have hle : (1000 : ℝ) * t + 1 ≤ 1000 * (t + timeStep s) := by nlinarith
    calc ⌊1000 * t⌋ + 1 = ⌊(1000 * t : ℝ) + (1 : ℤ)⌋ := by rw [Int.floor_add_int]
    _ ≤ ⌊1000 * (t + timeStep s)⌋ := Int.floor_le_floor (by push_cast; linarith)
  have h2 : ⌊(1000 : ℝ) * t⌋ < 120000 := by
    have ht : (1000 : ℝ) * t < 120000 := by nlinarith [h.2]
    exact Int.floor_lt.2 (by push_cast; linarith)
  omega

/-- The `Environment` instance state of the deepseek variant; its constructor
computes and stores `air_density` once. -/
structure Environment where
  altitude : ℝ
  temperature : ℝ
  pressure : ℝ
  humidity : ℝ
  wind_speed : ℝ
  wind_angle : ℝ
  coriolis : Bool
  latitude : ℝ
  air_density : ℝ

/-- The deepseek `Environment.__init__`. -/
noncomputable def Environment.make (altitude temperature pressure humidity wind_speed
    wind_angle : ℝ) (coriolis : Bool) (latitude : ℝ) : Environment :=
  ⟨altitude, temperature, pressure, humidity, wind_speed, wind_angle, coriolis, latitude,
   calculate_air_densityR altitude temperature pressure humidity⟩

/-- The deepseek `_calculate_trajectory`: builds the `Projectile` (thrust curve
`{0: thrust}`, burn time zeroed for non-rockets) and the `Environment`,
precomputes the wind vector and the launch angle in radians, and runs the RK4
loop from `[0, 0, v·cos θ, v·sin θ]` at `t = 0`. -/
noncomputable def calculate_trajectory (mass diameter : ℝ) (drag_model : String)
    (velocity angle altitude temperature pressure humidity wind_speed wind_angle : ℝ)
    (coriolis : Bool) (latitude : ℝ) (projectile_type : String) (thrust burn_time_input : ℝ)
    (custom_drag_curve : Option (List (ℝ × ℝ))) : List Sample :=
  let projectile := Projectile.make mass diameter drag_model velocity projectile_type
    [(0, thrust)] (if projectile_type = "rocket" then burn_time_input else 0) custom_drag_curve
  let environment := Environment.make altitude temperature pressure humidity wind_speed
    wind_angle coriolis latitude
  let angle_rad := radians angle
  let wind_x := environment.wind_speed * Real.cos (radians environment.wind_angle)
  let wind_y := environment.wind_speed * Real.sin (radians environment.wind_angle)
  trajLoop projectile environment.air_density wind_x wind_y environment.coriolis
    environment.latitude angle_rad
    ⟨0, 0, velocity * Real.cos angle_rad, velocity * Real.sin angle_rad⟩ 0


/-- Reference formula (from the specification's words) for linear interpolation
between two ISA anchors `(a0, t0, p0)` and `(a1, t1, p1)` at altitude `alt`;
`isa_interp` is compared against it. -/
def isaSegSpec (alt a0 t0 p0 a1 t1 p1 : ℚ) : ℚ × ℚ :=
  ((alt - a0) / (a1 - a0) * (t1 - t0) + t0, (alt - a0) / (a1 - a0) * (p1 - p0) + p0)

/-- Concrete rocket projectile with `burn_time = 0` (a value the GUI's burn-time
spin box allows). -/
def rocketZeroBurnQ : Projectile ℚ :=
  ⟨0.01, 0.01, "G7", 800, 1, "rocket", [(0, 2000)], 0, 0.01, none⟩

/-- Concrete rocket projectile with an empty thrust curve. -/
def emptyCurveQ : Projectile ℚ :=
  ⟨0.01, 0.01, "G7", 800, 1, "rocket", [], 5, 0.01, none⟩

/-- Concrete rocket projectile with the spec's example thrust curve
`{0: 2000, 1.2: 0}`. -/
def rocketCurveQ : Projectile ℚ :=
  ⟨0.01, 0.01, "G7", 800, 1, "rocket", [(0, 2000), (1.2, 0)], 1.2, 0.01, none⟩

/-- Concrete mortar projectile carrying a non-empty thrust curve and a positive
burn time. -/
def mortarQ : Projectile ℚ :=
  ⟨3.2, 0.082, "mortar", 150, 1, "mortar", [(0, 2000)], 5, 3.2, none⟩

/-- Concrete powered projectile over ℝ. -/
def rocketR : Projectile ℝ :=
  ⟨0.5, 0.05, "rocket", 100, 1, "rocket", [(0, 2000)], 1.2, 0.5, none⟩

/-- Concrete mortar projectile over ℝ with a non-empty thrust curve and a
positive burn time. -/
def mortarR : Projectile ℝ :=
  ⟨3.2, 0.082, "mortar", 150, 1, "mortar", [(0, 2000)], 5, 3.2, none⟩

/-- Constant function standing in for a transcendental library function in
closed instantiations. -/
def constOneQ : ℚ → ℚ := fun _ => 1


/-- One Euler update of the `_calculate_trajectory` of the last `part_000`
variant (its `Projectile` carries `drag_coeff`, `area` and `mass` directly):
drag with the zero-relative-velocity special case, gravity, optional Coriolis,
then `vx += ax·dt; vy += ay·dt; x += vx·dt; y += vy·dt` — positions use the
already-updated velocities. -/
noncomputable def part000_eulerStep (drag_coeff area mass air_density wind_x wind_y : ℝ)
    (coriolis : Bool) (latitude dt : ℝ) (s : St) : St :=
  let v_rel_x := s.vx - wind_x
  let v_rel_y := s.vy - wind_y
  let v_rel := Real.sqrt (v_rel_x ^ 2 + v_rel_y ^ 2)
  let drag_force := 0.5 * air_density * v_rel ^ 2 * drag_coeff * area
  let ax0 := if v_rel > 0 then -(drag_force * v_rel_x) / (mass * v_rel) else 0
  let ay0 := if v_rel > 0 then -GRAVITY - drag_force * v_rel_y / (mass * v_rel) else -GRAVITY
  let ax := if coriolis = true then ax0 + coriolis_param latitude * s.vy else ax0
  let ay := if coriolis = true then ay0 - coriolis_param latitude * s.vx else ay0
  let vx2 := s.vx + ax * dt
  let vy2 := s.vy + ay * dt
  ⟨s.x + vx2 * dt, s.y + vy2 * dt, vx2, vy2⟩

/-- The `while y >= 0` loop of the `part_000` Euler `_calculate_trajectory`:
the state is advanced FIRST and the post-update state appended only if still
`y ≥ 0`.  The source loop has no time cap and no step cap, hence no
termination guarantee, so it is modelled with explicit `fuel` bounding the
number of iterations: whenever the source loop exits within `fuel` iterations
the model returns exactly its output. -/
noncomputable def part000_loop (drag_coeff area mass air_density wind_x wind_y : ℝ)
    (coriolis : Bool) (latitude dt : ℝ) : ℕ → St → ℝ → List Sample
  | 0, _, _ => []
  | fuel + 1, s, time =>
    if s.y ≥ 0 then
      let s2 := part000_eulerStep drag_coeff area mass air_density wind_x wind_y coriolis
        latitude dt s
      let t2 := time + dt
      (if s2.y ≥ 0 then
         [⟨s2.x, s2.y, t2, s2.vx, s2.vy, Real.sqrt (s2.vx ^ 2 + s2.vy ^ 2)⟩]
       else []) ++
        part000_loop drag_coeff area mass air_density wind_x wind_y coriolis latitude dt
          fuel s2 t2
    else []

/-- The `part_000` Euler `_calculate_trajectory` (default `time_step = 0.1`),
with the projectile and environment fields it reads passed directly. -/
noncomputable def part000_calculate_trajectory (fuel : ℕ)
    (initial_velocity angle_degrees drag_coeff area mass air_density wind_speed
      wind_angle : ℝ) (coriolis : Bool) (latitude : ℝ) : List Sample :=
  let angle_rad := radians angle_degrees
  let wind_x := wind_speed * Real.cos (radians wind_angle)
  let wind_y := wind_speed * Real.sin (radians wind_angle)
  part000_loop drag_coeff area mass air_density wind_x wind_y coriolis latitude 0.1 fuel
    ⟨0, 0, initial_velocity * Real.cos angle_rad, initial_velocity * Real.sin angle_rad⟩ 0

/-- Exception-aware deepseek derivative: every Python float division is
threaded through `div?`, and the fallible operations `get_mass`,
`get_thrust` and `drag_coefficient` appear in their exception-aware forms.
`none` models an uncaught exception escaping the derivative. -/
noncomputable def derivativeE (p : Projectile ℝ) (air_density wind_x wind_y : ℝ)
    (coriolis : Bool) (latitude angle_rad : ℝ) (s : St) (t : ℝ) : Option St :=
  let v_rel_x := s.vx - wind_x
  let v_rel_y := s.vy - wind_y
  let v_rel := hypot v_rel_x v_rel_y
  (drag_coefficient? p v_rel).bind fun drag_coeff =>
    let drag_force := 0.5 * air_density * v_rel ^ 2 * drag_coeff * p.area
    (get_mass? p t).bind fun m =>
      (if v_rel > 0 then div? (-(drag_force * v_rel_x)) (m * v_rel) else some 0).bind fun ax0 =>
        (if v_rel > 0 then (div? (drag_force * v_rel_y) (m * v_rel)).map fun q => -GRAVITY - q
         else some (-GRAVITY)).bind fun ay0 =>
          (if p.projectile_type = "rocket" ∧ t < p.burn_time then
             (get_thrust? p t).bind fun thrust =>
               let ta := if t = 0 then angle_rad else atan2 s.vy s.vx
               (div? (thrust * Real.cos ta) m).bind fun dx =>
                 (div? (thrust * Real.sin ta) m).map fun dy => (ax0 + dx, ay0 + dy)
           else some (ax0, ay0)).map fun a =>
            let ax2 := if coriolis = true then a.1 + coriolis_param latitude * s.vy else a.1
            let ay2 := if coriolis = true then a.2 - coriolis_param latitude * s.vx else a.2
            (⟨s.vx, s.vy, ax2, ay2⟩ : St)

/-- Exception-aware RK4 update: fails exactly when one of its four derivative
evaluations fails. -/
noncomputable def rk4E (p : Projectile ℝ) (air_density wind_x wind_y : ℝ) (coriolis : Bool)
    (latitude angle_rad : ℝ) (s : St) (t dt : ℝ) : Option St :=
  (derivativeE p air_density wind_x wind_y coriolis latitude angle_rad s t).bind fun k1 =>
    (derivativeE p air_density wind_x wind_y coriolis latitude angle_rad
        (stAxpy (0.5 * dt) s k1) (t + 0.5 * dt)).bind fun k2 =>
      (derivativeE p air_density wind_x wind_y coriolis latitude angle_rad
          (stAxpy (0.5 * dt) s k2) (t + 0.5 * dt)).bind fun k3 =>
        (derivativeE p air_density wind_x wind_y coriolis latitude angle_rad
            (stAxpy dt s k3) (t + dt)).map fun k4 =>
          ⟨s.x + dt / 6 * (k1.x + 2 * k2.x + 2 * k3.x + k4.x),
           s.y + dt / 6 * (k1.y + 2 * k2.y + 2 * k3.y + k4.y),
           s.vx + dt / 6 * (k1.vx + 2 * k2.vx + 2 * k3.vx + k4.vx),
           s.vy + dt / 6 * (k1.vy + 2 * k2.vy + 2 * k3.vy + k4.vy)⟩

/-- Exception-aware adaptive step: its only division is by
`max(100, |v|) ≥ 100`, so it never fails (see `timeStepE_eq`). -/
noncomputable def timeStepE (s : St) : Option ℝ :=
  (div? 1000 (max 100 (hypot s.vx s.vy))).map fun q => max 0.001 (min 0.1 (0.1 * q))

/-- Exception-aware deepseek trajectory loop: each iteration's RK4 update is
threaded through `rk4E`; a `none` anywhere propagates out, modelling an
exception escaping `_calculate_trajectory`. -/
noncomputable def trajLoopE (p : Projectile ℝ) (air_density wind_x wind_y : ℝ)
    (coriolis : Bool) (latitude angle_rad : ℝ) : St → ℝ → Option (List Sample)
  | s, t =>
    if h : s.y ≥ 0 ∧ t < 120 then
      (rk4E p air_density wind_x wind_y coriolis latitude angle_rad s t (timeStep s)).bind
        fun s2 =>
          (trajLoopE p air_density wind_x wind_y coriolis latitude angle_rad s2
              (t + timeStep s)).map
            fun rest => ⟨s.x, s.y, t, s.vx, s.vy, hypot s.vx s.vy⟩ :: rest
    else some []
termination_by s t => (120000 - ⌊1000 * t⌋).toNat
decreasing_by
  have hdt : (0.001 : ℝ) ≤ timeStep s := le_max_left _ _
  have h1 : ⌊1000 * t⌋ + 1 ≤ ⌊1000 * (t + timeStep s)⌋ := by
    calc ⌊1000 * t⌋ + 1 = ⌊(1000 * t : ℝ) + (1 : ℤ)⌋ := by rw [Int.floor_add_int]
    _ ≤ ⌊1000 * (t + timeStep s)⌋ := Int.floor_le_floor (by push_cast; nlinarith)
  have h2 : ⌊(1000 : ℝ) * t⌋ < 120000 := Int.floor_lt.2 (by push_cast; nlinarith)
  omega

/-- Exception-aware deepseek `_calculate_trajectory`: the `Environment`
construction computes the air density (fallible) and the loop runs with
exception threading; `none` models any uncaught exception of the whole
call. -/
noncomputable def calculate_trajectoryE (mass diameter : ℝ) (drag_model : String)
    (velocity angle altitude temperature pressure humidity wind_speed wind_angle : ℝ)
    (coriolis : Bool) (latitude : ℝ) (projectile_type : String) (thrust burn_time_input : ℝ)
    (custom_drag_curve : Option (List (ℝ × ℝ))) : Option (List Sample) :=
  let projectile := Projectile.make mass diameter drag_model velocity projectile_type
    [(0, thrust)] (if projectile_type = "rocket" then burn_time_input else 0) custom_drag_curve
  let angle_rad := radians angle
  let wind_x := wind_speed * Real.cos (radians wind_angle)
  let wind_y := wind_speed * Real.sin (radians wind_angle)
  (calculate_air_density? (fun e => (10 : ℝ) ^ e) Real.exp altitude temperature pressure
      humidity).bind fun air_density =>
    trajLoopE projectile air_density wind_x wind_y coriolis latitude angle_rad
      ⟨0, 0, velocity * Real.cos angle_rad, velocity * Real.sin angle_rad⟩ 0

/-! Helper lemmas: absence of exceptions in the interpolation helpers. -/

theorem linear_interpolate?_isSome {α : Type} [LinearOrderedField α] (x x0 x1 y0 y1 : α) :
    (linear_interpolate? x x0 x1 y0 y1).isSome := by
  unfold linear_interpolate? div?
  split
  · rfl
  · rename_i h
    rw [if_neg (sub_ne_zero.mpr h)]
    rfl

theorem interpGo?_isSome {α : Type} [LinearOrderedField α] (x : α) :
    ∀ (prev : α × α) (L : List (α × α)), (interpGo? x prev L).isSome := by
  intro prev L
  induction L generalizing prev with
  | nil => rfl
  | cons q rest ih =>
    unfold interpGo?
    split
    · exact linear_interpolate?_isSome ..
    · exact ih q

theorem interpolate_curve?_isSome {α : Type} [LinearOrderedField α] (x : α)
    (curve : List (α × α)) : (interpolate_curve? x curve).isSome := by
  match curve with
  | [] => rfl
  | [p] => rfl
  | a :: b :: L =>
    simp only [interpolate_curve?]
    split
    · rfl
    · split
      · rfl
      · split
        · rfl
        · exact interpGo?_isSome ..

theorem drag_coefficient?_isSome {α : Type} [LinearOrderedField α] (p : Projectile α)
    (velocity : α) : (drag_coefficient? p velocity).isSome := by
  unfold drag_coefficient?
  split
  · rfl
  · split
    · rfl
    · split
      · rfl
      · split
        · rfl
        · split
          · match p.custom_drag_curve with
            | some (q :: rest) => exact interpolate_curve?_isSome ..
            | some [] => rfl
            | none => rfl
          · rfl

theorem dictGet?_isSome {α : Type} [LinearOrderedField α] {c : List (α × α)} {k : α}
    (h : k ∈ c.map Prod.fst) : (dictGet? c k).isSome := by
  unfold dictGet?
  obtain ⟨q, hq, hqk⟩ := List.mem_map.1 h
  have : (c.find? fun r => decide (r.1 = k)).isSome := by
    rw [List.find?_isSome]
    exact ⟨q, hq, by simp [hqk]⟩
  obtain ⟨r, hr⟩ := Option.isSome_iff_exists.1 this
  rw [hr]
  rfl

theorem getLastD_mem_cons {β : Type} : ∀ (l : List β) (d : β), l.getLastD d ∈ d :: l := by
  intro l
  induction l with
  | nil => intro d; simp
  | cons e L ih =>
    intro d
    rw [List.getLastD_cons]
    exact List.mem_cons_of_mem _ (ih e)

theorem sortKeys_perm {α : Type} [LinearOrderedField α] (c : List (α × α)) :
    List.Perm (sortKeys c) (c.map Prod.fst) :=
  List.perm_insertionSort _ _

theorem sortKeys_pairwise_lt {α : Type} [LinearOrderedField α] {c : List (α × α)}
    (hnd : (c.map Prod.fst).Nodup) : (sortKeys c).Pairwise (· < ·) := by
  have hs : (sortKeys c).Pairwise (fun a b : α => a ≤ b) :=
    List.sorted_insertionSort _ _
  have hnd2 : (sortKeys c).Nodup := (sortKeys_perm c).nodup_iff.2 hnd
  exact (hs.and hnd2).imp fun hab => lt_of_le_of_ne hab.1 hab.2

theorem thrustGo?_isSome {α : Type} [LinearOrderedField α] (c : List (α × α)) (time : α) :
    ∀ (t0 : α) (L : List α), (t0 :: L).Pairwise (· < ·) →
      (∀ k ∈ t0 :: L, k ∈ c.map Prod.fst) → (thrustGo? c time t0 L).isSome := by
  intro t0 L
  induction L generalizing t0 with
  | nil => intro _ _; rfl
  | cons t1 rest ih =>
    intro hp hm
    unfold thrustGo?
    split
    · have h01 : t0 < t1 := (List.pairwise_cons.1 hp).1 t1 (by simp)
      obtain ⟨f0, hf0⟩ := Option.isSome_iff_exists.1 (dictGet?_isSome (c := c) (hm t0 (by simp)))
      obtain ⟨f1, hf1⟩ := Option.isSome_iff_exists.1 (dictGet?_isSome (c := c) (hm t1 (by simp)))
      rw [hf0, hf1]
      simp [div?, sub_ne_zero.mpr h01.ne']
    · exact ih t1 ((List.pairwise_cons.1 hp).2)
        (fun k hk => hm k (List.mem_cons_of_mem _ hk))

theorem get_thrust?_isSome {α : Type} [LinearOrderedField α] (p : Projectile α) (time : α)
    (hnd : (p.thrust_curve.map Prod.fst).Nodup) : (get_thrust? p time).isSome := by
  unfold get_thrust?
  split
  · rfl
  · have hperm : List.Perm (sortKeys p.thrust_curve) (p.thrust_curve.map Prod.fst) :=
      sortKeys_perm _
    have hpair : (sortKeys p.thrust_curve).Pairwise (· < ·) := sortKeys_pairwise_lt hnd
    generalize hs : sortKeys p.thrust_curve = ks
    rw [hs] at hperm hpair
    cases ks with
    | nil => rfl
    | cons t0 rest =>
      have hmem : ∀ k ∈ t0 :: rest, k ∈ p.thrust_curve.map Prod.fst := fun k hk =>
        hperm.mem_iff.1 hk
      dsimp only
      split
      · exact dictGet?_isSome (hmem t0 (by simp))
      · split
        · exact dictGet?_isSome (hmem _ (getLastD_mem_cons rest t0))
        · exact thrustGo?_isSome p.thrust_curve time t0 rest hpair hmem

theorem get_thrustV344?_isSome {α : Type} [LinearOrderedField α] (p : Projectile α) (time : α)
    (hnd : (p.thrust_curve.map Prod.fst).Nodup) (hne : p.thrust_curve ≠ []) :
    (get_thrustV344? p time).isSome := by
  unfold get_thrustV344?
  split
  · rfl
  · have hperm : List.Perm (sortKeys p.thrust_curve) (p.thrust_curve.map Prod.fst) :=
      sortKeys_perm _
    have hpair : (sortKeys p.thrust_curve).Pairwise (· < ·) := sortKeys_pairwise_lt hnd
    generalize hs : sortKeys p.thrust_curve = ks
    rw [hs] at hperm hpair
    cases ks with
    | nil =>
      exfalso
      have hlen := hperm.length_eq
      simp only [List.length_nil, List.length_map] at hlen
      exact hne (List.length_eq_zero.1 hlen.symm)
    | cons t0 rest =>
      have hmem : ∀ k ∈ t0 :: rest, k ∈ p.thrust_curve.map Prod.fst := fun k hk =>
        hperm.mem_iff.1 hk
      dsimp only
      split
      · exact dictGet?_isSome (hmem t0 (by simp))
      · split
        · exact dictGet?_isSome (hmem _ (getLastD_mem_cons rest t0))
        · exact thrustGo?_isSome p.thrust_curve time t0 rest hpair hmem

theorem get_mass?_isSome {α : Type} [LinearOrderedField α] (p : Projectile α) (time : α)
    (hbt : p.projectile_type = "rocket" → 0 < p.burn_time) : (get_mass? p time).isSome := by
  unfold get_mass?
  split
  · rfl
  · rename_i h
    push_neg at h
    simp [div?, (hbt h.1).ne']

theorem get_mass?_value {α : Type} [LinearOrderedField α] (p : Projectile α) (time : α)
    (hm : p.initial_mass = p.mass) :
    ∀ w, get_mass? p time = some w → w = p.mass := by
  intro w hw
  unfold get_mass? at hw
  split at hw
  · simp only [Option.some.injEq] at hw
    exact hw.symm
  · unfold div? at hw
    split at hw
    · exact absurd hw (by simp)
    · simp only [Option.map_some', Option.some.injEq] at hw
      rw [← hw, hm]
      ring

theorem calculate_air_density?_isSome {α : Type} [LinearOrderedField α] (pow10 expF : α → α)
    (altitude temperature pressure humidity : α) (h1 : temperature + 237.3 ≠ 0)
    (h2 : temperature + 273.15 ≠ 0) (h3 : pressure ≠ 0) :
    (calculate_air_density? pow10 expF altitude temperature pressure humidity).isSome := by
  simp [calculate_air_density?, div?, mul_eq_zero, h1, h2, h3,
    (by norm_num : ¬(287.058 : α) = 0), (by norm_num : ¬(100 : α) = 0)]


/-! Helper lemmas for the custom-curve interpolation and the ISA table. -/

theorem sortPairs_perm {α : Type} [LinearOrderedField α] (c : List (α × α)) :
    List.Perm (sortPairs c) c :=
  List.perm_insertionSort _ _

theorem sortPairs_fst_sorted {α : Type} [LinearOrderedField α] (c : List (α × α)) :
    (sortPairs c).Pairwise (fun a b : α × α => a.1 ≤ b.1) := by
  have h : (sortPairs c).Pairwise (pairLex (α := α)) := List.sorted_insertionSort _ _
  refine h.imp ?_
  intro a b hab
  rcases hab with h' | ⟨h1, _⟩
  · exact h'.le
  · exact h1.le

theorem pairwise_fst_le_getLastD {α : Type} [LinearOrderedField α] :
    ∀ (d : α × α) (l : List (α × α)), (d :: l).Pairwise (fun a b : α × α => a.1 ≤ b.1) →
      ∀ a ∈ d :: l, a.1 ≤ (l.getLastD d).1 := by
  intro d l
  induction l generalizing d with
  | nil =>
    intro _ a ha
    simp only [List.mem_singleton] at ha
    simp [ha, List.getLastD]
  | cons e L ih =>
    intro hp a ha
    rw [List.getLastD_cons]
    rcases List.mem_cons.1 ha with rfl | ha2
    · exact (List.pairwise_cons.1 hp).1 _ (getLastD_mem_cons L e)
    · exact ih e (List.pairwise_cons.1 hp).2 a ha2

theorem interpGo_append {α : Type} [LinearOrderedField α] (x : α) :
    ∀ (A : List (α × α)) (prev u w : α × α) (B : List (α × α)),
      (∀ a ∈ A, a.1 ≤ x) → u.1 ≤ x → x < w.1 →
      interpGo x prev (A ++ u :: w :: B) = linear_interpolate x u.1 w.1 u.2 w.2 := by
  intro A
  induction A with
  | nil =>
    intro prev u w B _ hu hw
    show interpGo x prev (u :: w :: B) = _
    unfold interpGo
    rw [if_neg (not_lt.2 hu)]
    unfold interpGo
    rw [if_pos hw]
  | cons a A2 ih =>
    intro prev u w B hA hu hw
    show interpGo x prev (a :: (A2 ++ u :: w :: B)) = _
    unfold interpGo
    rw [if_neg (not_lt.2 (hA a (by simp)))]
    exact ih a u w B (fun b hb => hA b (by simp [hb])) hu hw

theorem isaGo_skip (alt : ℚ) (prev e : ℚ × ℚ × ℚ) (rest : List (ℚ × ℚ × ℚ))
    (h : ¬alt < e.1) : isaGo alt prev (e :: rest) = isaGo alt e rest := by
  conv_lhs => rw [isaGo]
  rw [if_neg h]

theorem isaGo_hit (alt : ℚ) (prev e : ℚ × ℚ × ℚ) (rest : List (ℚ × ℚ × ℚ))
    (h : alt < e.1) :
    isaGo alt prev (e :: rest) =
      isaSegSpec alt prev.1 prev.2.1 prev.2.2 e.1 e.2.1 e.2.2 := by
  conv_lhs => rw [isaGo]
  rw [if_pos h]
  rfl

/-- Counterexample for C2 as stated: a rocket with `burnTime = 0` (allowed by
the claim) makes `get_mass` raise `ZeroDivisionError` at `t = 0`, and the v344
`get_thrust` raises `IndexError` on an empty thrust curve. -/
theorem C2_throw_counterexample :
    get_mass? rocketZeroBurnQ 0 = none ∧ get_thrustV344? emptyCurveQ 0 = none := by
  constructor
  · norm_num [get_mass?, rocketZeroBurnQ, div?]
  · norm_num [get_thrustV344?, emptyCurveQ, sortKeys]

/-- C4 (corrected): the strict descending thresholds mean that at the exact
breakpoint `343·1.5` Mach equals 1.5, the `> 1.5` test fails, and the next
bucket applies: G1 returns 0.33 (not 0.35) and G7 returns 0.28 (not 0.30).
The bucket boundaries are half-open on the upper side. -/
theorem C4_drag_buckets :
    (∀ v : ℚ, 343 * 1.2 < v → v ≤ 343 * 1.5 → DragModel.G1 v = 0.33) ∧
    (∀ v : ℚ, 343 * 1.5 < v → v ≤ 343 * 2 → DragModel.G1 v = 0.35) ∧
    (∀ v : ℚ, 343 * 1.2 < v → v ≤ 343 * 1.5 → DragModel.G7 v = 0.28) ∧
    (∀ v : ℚ, 343 * 1.5 < v → v ≤ 343 * 2 → DragModel.G7 v = 0.30) ∧
    DragModel.G1 ((343 : ℚ) * 1.5) = 0.33 ∧ DragModel.G7 ((343 : ℚ) * 1.5) = 0.28 := by
  have hb : (0 : ℚ) < 343 := by norm_num
  refine ⟨?_, ?_, ?_, ?_, ?_, ?_⟩
  · intro v h1 h2
    have hm1 : v / 343 ≤ 1.5 := by rw [div_le_iff hb]; linarith
    have hm2 : (1.2 : ℚ) < v / 343 := by rw [lt_div_iff hb]; linarith
    simp only [DragModel.G1]
    rw [if_neg (not_lt.2 (by linarith)), if_neg (not_lt.2 (by linarith)),
        if_neg (not_lt.2 (by linarith)), if_neg (not_lt.2 (by linarith)),
        if_neg (not_lt.2 (by linarith)), if_pos hm2]
  · intro v h1 h2
    have hm1 : v / 343 ≤ 2 := by rw [div_le_iff hb]; linarith
    have hm2 : (1.5 : ℚ) < v / 343 := by rw [lt_div_iff hb]; linarith
    simp only [DragModel.G1]
    rw [if_neg (not_lt.2 (by linarith)), if_neg (not_lt.2 (by linarith)),
        if_neg (not_lt.2 (by linarith)), if_neg (not_lt.2 (by linarith)), if_pos hm2]
  · intro v h1 h2
    have hm1 : v / 343 ≤ 1.5 := by rw [div_le_iff hb]; linarith
    have hm2 : (1.2 : ℚ) < v / 343 := by rw [lt_div_iff hb]; linarith
    simp only [DragModel.G7]
    rw [if_neg (not_lt.2 (by linarith)), if_neg (not_lt.2 (by linarith)),
        if_neg (not_lt.2 (by linarith)), if_neg (not_lt.2 (by linarith)),
        if_neg (not_lt.2 (by linarith)), if_pos hm2]
  · intro v h1 h2
    have hm1 : v / 343 ≤ 2 := by rw [div_le_iff hb]; linarith
    have hm2 : (1.5 : ℚ) < v / 343 := by rw [lt_div_iff hb]; linarith
    simp only [DragModel.G7]
    rw [if_neg (not_lt.2 (by linarith)), if_neg (not_lt.2 (by linarith)),
        if_neg (not_lt.2 (by linarith)), if_neg (not_lt.2 (by linarith)), if_pos hm2]
  · norm_num [DragModel.G1]
  · norm_num [DragModel.G7]

/-- Witness for C4 at velocities inside the two buckets around Mach 1.5. -/
theorem C4_drag_buckets_witness :
    ((343 * 1.2 : ℚ) < 500 ∧ (500 : ℚ) ≤ 343 * 1.5 ∧ DragModel.G1 (500 : ℚ) = 0.33) ∧
    ((343 * 1.5 : ℚ) < 600 ∧ (600 : ℚ) ≤ 343 * 2 ∧ DragModel.G7 (600 : ℚ) = 0.30) :=
  ⟨⟨by norm_num, by norm_num, C4_drag_buckets.1 500 (by norm_num) (by norm_num)⟩,
   ⟨by norm_num, by norm_num, C4_drag_buckets.2.2.2.1 600 (by norm_num) (by norm_num)⟩⟩

/-- Counterexample for C4 as stated: at the exact breakpoint the tables return
the next-lower bucket's coefficient, not the claimed 0.35 / 0.30. -/
theorem C4_breakpoint_counterexample :
    DragModel.G1 ((343 : ℚ) * 1.5) = 0.33 ∧ DragModel.G1 ((343 : ℚ) * 1.5) ≠ 0.35 ∧
    DragModel.G7 ((343 : ℚ) * 1.5) = 0.28 ∧ DragModel.G7 ((343 : ℚ) * 1.5) ≠ 0.30 := by
  refine ⟨by norm_num [DragModel.G1], ?_, by norm_num [DragModel.G7], ?_⟩ <;>
    norm_num [DragModel.G1, DragModel.G7]

/-- C6 (corrected): only the hopev3 variant floors its air density
(`max(0.1, rho)`), so that variant's result is at least 0.1 and in particular
strictly positive; the deepseek/part_000 variants cited by the claim apply no
floor (see the counterexample). -/
theorem C6_density_floor (temp pressure humidity altitude : ℝ) :
    0.1 ≤ hopev3_air_density temp pressure humidity altitude ∧
    0 < hopev3_air_density temp pressure humidity altitude := by
  have h : (0.1 : ℝ) ≤ hopev3_air_density temp pressure humidity altitude := by
    simp only [hopev3_air_density]
    exact le_max_left _ _
  exact ⟨h, lt_of_lt_of_le (by norm_num) h⟩

/-- Counterexample for C6 as stated: the deepseek `calculate_air_density`
applies no floor and returns a negative density at the finite input
`temperature = -274.15 °C`, `humidity = 0`. -/
theorem C6_negative_density_counterexample :
    calculate_air_densityR 0 (-274.15) 1013.25 0 < 0 := by
  simp only [calculate_air_densityR]
  norm_num [Real.exp_zero]


theorem isaGo_nil' (alt a t p : ℚ) : isaGo alt (a, t, p) [] = (t, p) := rfl

theorem isaGo_skip' (alt a0 t0 p0 a1 t1 p1 : ℚ) (rest : List (ℚ × ℚ × ℚ))
    (h : ¬alt < a1) :
    isaGo alt (a0, t0, p0) ((a1, t1, p1) :: rest) = isaGo alt (a1, t1, p1) rest := by
  conv_lhs => rw [isaGo]
  rw [if_neg h]

theorem isaGo_hit' (alt a0 t0 p0 a1 t1 p1 : ℚ) (rest : List (ℚ × ℚ × ℚ))
    (h : alt < a1) :
    isaGo alt (a0, t0, p0) ((a1, t1, p1) :: rest) = isaSegSpec alt a0 t0 p0 a1 t1 p1 := by
  conv_lhs => rw [isaGo]
  rw [if_pos h]
  rfl

/-- C7 (corrected): in dynamic-air mode `isa_interp` linearly interpolates
between the bracketing ISA anchors in range and clamps at the table's top end
(altitudes at or above 10000 m), but below 0 m it does not clamp: the first
segment's linear formula is extrapolated (the loop tests only
`alt < table[i].altitude`). -/
theorem C7_isa_interp :
    (∀ alt : ℚ, alt < 1000 → isa_interp alt = isaSegSpec alt 0 15 1013.25 1000 (8.5) (898.76)) ∧
    (∀ alt : ℚ, 1000 ≤ alt → alt < 2000 → isa_interp alt = isaSegSpec alt 1000 (8.5) (898.76) 2000 (2) (794.98)) ∧
    (∀ alt : ℚ, 2000 ≤ alt → alt < 3000 → isa_interp alt = isaSegSpec alt 2000 (2) (794.98) 3000 (-4.5) (701.12)) ∧
    (∀ alt : ℚ, 3000 ≤ alt → alt < 4000 → isa_interp alt = isaSegSpec alt 3000 (-4.5) (701.12) 4000 (-11) (616.6)) ∧
    (∀ alt : ℚ, 4000 ≤ alt → alt < 5000 → isa_interp alt = isaSegSpec alt 4000 (-11) (616.6) 5000 (-17.5) (540.19)) ∧
    (∀ alt : ℚ, 5000 ≤ alt → alt < 6000 → isa_interp alt = isaSegSpec alt 5000 (-17.5) (540.19) 6000 (-24) (471.82)) ∧
    (∀ alt : ℚ, 6000 ≤ alt → alt < 7000 → isa_interp alt = isaSegSpec alt 6000 (-24) (471.82) 7000 (-30.5) (410.55)) ∧
    (∀ alt : ℚ, 7000 ≤ alt → alt < 8000 → isa_interp alt = isaSegSpec alt 7000 (-30.5) (410.55) 8000 (-37) (356.51)) ∧
    (∀ alt : ℚ, 8000 ≤ alt → alt < 9000 → isa_interp alt = isaSegSpec alt 8000 (-37) (356.51) 9000 (-43.5) (308.78)) ∧
    (∀ alt : ℚ, 9000 ≤ alt → alt < 10000 → isa_interp alt = isaSegSpec alt 9000 (-43.5) (308.78) 10000 (-50) (265)) ∧
    (∀ alt : ℚ, 10000 ≤ alt → isa_interp alt = (-50, 265)) := by
  refine ⟨?_, ?_, ?_, ?_, ?_, ?_, ?_, ?_, ?_, ?_, ?_⟩
  · intro alt h2
    simp only [isa_interp, ISA_TABLE]
    rw [isaGo_hit' _ _ _ _ _ _ _ _ h2]
    norm_num [isaSegSpec, Prod.mk.injEq]
  · intro alt h1 h2
    simp only [isa_interp, ISA_TABLE]
    rw [isaGo_skip' _ _ _ _ _ _ _ _ (not_lt.2 (by linarith)),
        isaGo_hit' _ _ _ _ _ _ _ _ h2]
    norm_num [isaSegSpec, Prod.mk.injEq]
  · intro alt h1 h2
    simp only [isa_interp, ISA_TABLE]
    rw [isaGo_skip' _ _ _ _ _ _ _ _ (not_lt.2 (by linarith)),
        isaGo_skip' _ _ _ _ _ _ _ _ (not_lt.2 (by linarith)),
        isaGo_hit' _ _ _ _ _ _ _ _ h2]
    norm_num [isaSegSpec, Prod.mk.injEq]
  · intro alt h1 h2
    simp only [isa_interp, ISA_TABLE]
    rw [isaGo_skip' _ _ _ _ _ _ _ _ (not_lt.2 (by linarith)),
        isaGo_skip' _ _ _ _ _ _ _ _ (not_lt.2 (by linarith)),
        isaGo_skip' _ _ _ _ _ _ _ _ (not_lt.2 (by linarith)),
        isaGo_hit' _ _ _ _ _ _ _ _ h2]
    norm_num [isaSegSpec, Prod.mk.injEq]
  · intro alt h1 h2
    simp only [isa_interp, ISA_TABLE]
    rw [isaGo_skip' _ _ _ _ _ _ _ _ (not_lt.2 (by linarith)),
        isaGo_skip' _ _ _ _ _ _ _ _ (not_lt.2 (by linarith)),
        isaGo_skip' _ _ _ _ _ _ _ _ (not_lt.2 (by linarith)),
        isaGo_skip' _ _ _ _ _ _ _ _ (not_lt.2 (by linarith)),
        isaGo_hit' _ _ _ _ _ _ _ _ h2]
    norm_num [isaSegSpec, Prod.mk.injEq]
  · intro alt h1 h2
    simp only [isa_interp, ISA_TABLE]
    rw [isaGo_skip' _ _ _ _ _ _ _ _ (not_lt.2 (by linarith)),
        isaGo_skip' _ _ _ _ _ _ _ _ (not_lt.2 (by linarith)),
        isaGo_skip' _ _ _ _ _ _ _ _ (not_lt.2 (by linarith)),
        isaGo_skip' _ _ _ _ _ _ _ _ (not_lt.2 (by linarith)),
        isaGo_skip' _ _ _ _ _ _ _ _ (not_lt.2 (by linarith)),
        isaGo_hit' _ _ _ _ _ _ _ _ h2]
    norm_num [isaSegSpec, Prod.mk.injEq]
  · intro alt h1 h2
    simp only [isa_interp, ISA_TABLE]
    rw [isaGo_skip' _ _ _ _ _ _ _ _ (not_lt.2 (by linarith)),
        isaGo_skip' _ _ _ _ _ _ _ _ (not_lt.2 (by linarith)),
        isaGo_skip' _ _ _ _ _ _ _ _ (not_lt.2 (by linarith)),
        isaGo_skip' _ _ _ _ _ _ _ _ (not_lt.2 (by linarith)),
        isaGo_skip' _ _ _ _ _ _ _ _ (not_lt.2 (by linarith)),
        isaGo_skip' _ _ _ _ _ _ _ _ (not_lt.2 (by linarith)),
        isaGo_hit' _ _ _ _ _ _ _ _ h2]
    norm_num [isaSegSpec, Prod.mk.injEq]
  · intro alt h1 h2
    simp only [isa_interp, ISA_TABLE]
    rw [isaGo_skip' _ _ _ _ _ _ _ _ (not_lt.2 (by linarith)),
        isaGo_skip' _ _ _ _ _ _ _ _ (not_lt.2 (by linarith)),
        isaGo_skip' _ _ _ _ _ _ _ _ (not_lt.2 (by linarith)),
        isaGo_skip' _ _ _ _ _ _ _ _ (not_lt.2 (by linarith)),
        isaGo_skip' _ _ _ _ _ _ _ _ (not_lt.2 (by linarith)),
        isaGo_skip' _ _ _ _ _ _ _ _ (not_lt.2 (by linarith)),
        isaGo_skip' _ _ _ _ _ _ _ _ (not_lt.2 (by linarith)),
        isaGo_hit' _ _ _ _ _ _ _ _ h2]
    norm_num [isaSegSpec, Prod.mk.injEq]
  · intro alt h1 h2
    simp only [isa_interp, ISA_TABLE]
    rw [isaGo_skip' _ _ _ _ _ _ _ _ (not_lt.2 (by linarith)),
        isaGo_skip' _ _ _ _ _ _ _ _ (not_lt.2 (by linarith)),
        isaGo_skip' _ _ _ _ _ _ _ _ (not_lt.2 (by linarith)),
        isaGo_skip' _ _ _ _ _ _ _ _ (not_lt.2 (by linarith)),
        isaGo_skip' _ _ _ _ _ _ _ _ (not_lt.2 (by linarith)),
        isaGo_skip' _ _ _ _ _ _ _ _ (not_lt.2 (by linarith)),
        isaGo_skip' _ _ _ _ _ _ _ _ (not_lt.2 (by linarith)),
        isaGo_skip' _ _ _ _ _ _ _ _ (not_lt.2 (by linarith)),
        isaGo_hit' _ _ _ _ _ _ _ _ h2]
    norm_num [isaSegSpec, Prod.mk.injEq]
  · intro alt h1 h2
    simp only [isa_interp, ISA_TABLE]
    rw [isaGo_skip' _ _ _ _ _ _ _ _ (not_lt.2 (by linarith)),
        isaGo_skip' _ _ _ _ _ _ _ _ (not_lt.2 (by linarith)),
        isaGo_skip' _ _ _ _ _ _ _ _ (not_lt.2 (by linarith)),
        isaGo_skip' _ _ _ _ _ _ _ _ (not_lt.2 (by linarith)),
        isaGo_skip' _ _ _ _ _ _ _ _ (not_lt.2 (by linarith)),
        isaGo_skip' _ _ _ _ _ _ _ _ (not_lt.2 (by linarith)),
        isaGo_skip' _ _ _ _ _ _ _ _ (not_lt.2 (by linarith)),
        isaGo_skip' _ _ _ _ _ _ _ _ (not_lt.2 (by linarith)),
        isaGo_skip' _ _ _ _ _ _ _ _ (not_lt.2 (by linarith)),
        isaGo_hit' _ _ _ _ _ _ _ _ h2]
    norm_num [isaSegSpec, Prod.mk.injEq]
  · intro alt h1
    simp only [isa_interp, ISA_TABLE]
    rw [isaGo_skip' _ _ _ _ _ _ _ _ (not_lt.2 (by linarith)),
        isaGo_skip' _ _ _ _ _ _ _ _ (not_lt.2 (by linarith)),
        isaGo_skip' _ _ _ _ _ _ _ _ (not_lt.2 (by linarith)),
        isaGo_skip' _ _ _ _ _ _ _ _ (not_lt.2 (by linarith)),
        isaGo_skip' _ _ _ _ _ _ _ _ (not_lt.2 (by linarith)),
        isaGo_skip' _ _ _ _ _ _ _ _ (not_lt.2 (by linarith)),
        isaGo_skip' _ _ _ _ _ _ _ _ (not_lt.2 (by linarith)),
        isaGo_skip' _ _ _ _ _ _ _ _ (not_lt.2 (by linarith)),
        isaGo_skip' _ _ _ _ _ _ _ _ (not_lt.2 (by linarith)),
        isaGo_skip' _ _ _ _ _ _ _ _ (not_lt.2 (by linarith)), isaGo_nil']
    norm_num [Prod.mk.injEq]

/-- Witness for C7: the first-segment formula at `alt = -1000` (reached because
`-1000 < 1000`) and the top clamp at `alt = 12000`. -/
theorem C7_isa_interp_witness :
    ((-1000 : ℚ) < 1000 ∧ isa_interp (-1000) = isaSegSpec (-1000) 0 15 1013.25 1000 (8.5) (898.76)) ∧
    ((10000 : ℚ) ≤ 12000 ∧ isa_interp 12000 = (-50, 265)) :=
  ⟨⟨by norm_num, C7_isa_interp.1 (-1000) (by norm_num)⟩,
   ⟨by norm_num, C7_isa_interp.2.2.2.2.2.2.2.2.2.2 12000 (by norm_num)⟩⟩

/-- Counterexample for C7 as stated: below the table (claimed to clamp to the
0 m entry `(15, 1013.25)`) the code extrapolates, returning `(21.5, 1127.74)`
at `alt = -1000`. -/
theorem C7_extrapolation_counterexample :
    isa_interp (-1000) = (21.5, 1127.74) ∧ isa_interp (-1000) ≠ (15, 1013.25) := by
  have h : isa_interp (-1000) = (21.5, 1127.74) := by
    norm_num [isa_interp, ISA_TABLE, isaGo, Prod.mk.injEq]
  refine ⟨h, ?_⟩
  rw [h]
  norm_num [Prod.mk.injEq]

/-- C9 (confirmed): the deepseek constructor sets `initial_mass = mass` and
accepts no separate final mass, so for every single-stage projectile the
depletion formula `initial_mass - (initial_mass - mass)·(t/burnTime)` collapses
to `mass`: `get_mass` is constant and no mass depletion ever occurs. -/
theorem C9_constant_mass (mass diameter : ℝ) (dm : String) (v : ℝ) (pt : String)
    (tc : List (ℝ × ℝ)) (bt : ℝ) (cc : Option (List (ℝ × ℝ))) (t : ℝ) :
    get_mass (Projectile.make mass diameter dm v pt tc bt cc) t = mass ∧
    (∀ w, get_mass? (Projectile.make mass diameter dm v pt tc bt cc) t = some w → w = mass) := by
  constructor
  · simp only [get_mass, Projectile.make]
    split
    · rfl
    · ring
  · exact fun w hw => get_mass?_value _ _ rfl w hw

/-- Witness for C9 at a concrete rocket mid-burn: the mass is still the
constructor mass. -/
theorem C9_constant_mass_witness :
    get_mass (Projectile.make 10 0.07 "G7" 800 "rocket" [(0, 1000)] 2 none) 1 = 10 ∧
    (10 : ℝ) = 10 :=
  ⟨(C9_constant_mass 10 0.07 "G7" 800 "rocket" [(0, 1000)] 2 none 1).1,
   (C9_constant_mass 10 0.07 "G7" 800 "rocket" [(0, 1000)] 2 none 1).2 10 (by
     norm_num [get_mass?, Projectile.make, div?])⟩

/-- C10 (confirmed): thrust and mass depletion are gated on the exact string
`"rocket"`: a `"mortar"` or `"bullet"` projectile, even with a non-empty
thrust curve and positive burn time, gets constant mass from `get_mass` and a
derivative identical to the thrust-free derivative. -/
theorem C10_rocket_gating :
    (∀ (p : Projectile ℚ) (t : ℚ),
      p.projectile_type = "mortar" ∨ p.projectile_type = "bullet" →
      get_mass? p t = some p.mass) ∧
    (∀ (p : Projectile ℝ) (air_density wind_x wind_y : ℝ) (coriolis : Bool)
        (latitude angle_rad : ℝ) (s : St) (t : ℝ),
      p.projectile_type = "mortar" ∨ p.projectile_type = "bullet" →
      derivative p air_density wind_x wind_y coriolis latitude angle_rad s t =
        derivative_nothrust p air_density wind_x wind_y coriolis latitude s t) := by
  constructor
  · intro p t hp
    have hne : p.projectile_type ≠ "rocket" := by
      rcases hp with h | h <;> rw [h] <;> decide
    unfold get_mass?
    rw [if_pos (Or.inl hne)]
  · intro p ad wx wy cor lat ar s t hp
    have hne : ¬(p.projectile_type = "rocket" ∧ t < p.burn_time) := by
      rcases hp with h | h <;> rw [h] <;> exact fun hc => absurd hc.1 (by decide)
    simp only [derivative, derivative_nothrust, if_neg hne]

/-- Witness for C10 at concrete mortar projectiles with thrust data. -/
theorem C10_rocket_gating_witness :
    get_mass? mortarQ 1 = some mortarQ.mass ∧
    derivative mortarR 1.225 0 0 false 45 0.7 ⟨0, 0, 100, 100⟩ 1 =
      derivative_nothrust mortarR 1.225 0 0 false 45 ⟨0, 0, 100, 100⟩ 1 :=
  ⟨C10_rocket_gating.1 mortarQ 1 (Or.inl rfl),
   C10_rocket_gating.2 mortarR 1.225 0 0 false 45 0.7 ⟨0, 0, 100, 100⟩ 1 (Or.inl rfl)⟩

/-- C5 (corrected): `dragCoefficient` on a custom curve sorts the pairs
ascending (lexicographically, as Python sorts tuples), returns 0 for an empty
curve and the single Cd for a one-point curve, and otherwise applies the checks
in source order: first `v ≤` the first sorted velocity (first point's Cd), then
`v ≥` the last sorted velocity (last point's Cd), else linear interpolation at
the first bracketing pair.  Because the first-point check has priority, the
claim's "last point's Cd whenever v is at or above the last velocity" holds
only when the first check fails (see the counterexample with coinciding
velocities). -/
theorem C5_custom_curve :
    (∀ x : ℚ, interpolate_curve x ([] : List (ℚ × ℚ)) = 0) ∧
    (∀ (x : ℚ) (p : ℚ × ℚ), interpolate_curve x [p] = p.2) ∧
    (∀ (x : ℚ) (curve : List (ℚ × ℚ)) (p : ℚ × ℚ) (rest : List (ℚ × ℚ)),
      2 ≤ curve.length → sortPairs curve = p :: rest → x ≤ p.1 →
      interpolate_curve x curve = p.2) ∧
    (∀ (x : ℚ) (curve : List (ℚ × ℚ)) (p : ℚ × ℚ) (rest : List (ℚ × ℚ)),
      2 ≤ curve.length → sortPairs curve = p :: rest → p.1 < x →
      (rest.getLastD p).1 ≤ x → interpolate_curve x curve = (rest.getLastD p).2) ∧
    (∀ (x : ℚ) (curve : List (ℚ × ℚ)) (p : ℚ × ℚ) (rest A B : List (ℚ × ℚ)) (u w : ℚ × ℚ),
      2 ≤ curve.length → sortPairs curve = p :: rest → p :: rest = A ++ u :: w :: B →
      p.1 < x → u.1 ≤ x → x < w.1 →
      interpolate_curve x curve = linear_interpolate x u.1 w.1 u.2 w.2) ∧
    (DragModel.custom (200 : ℚ) [(100, 0.3), (300, 0.5)] = 0.4 ∧
     DragModel.custom (50 : ℚ) [(100, 0.3), (300, 0.5)] = 0.3 ∧
     DragModel.custom (400 : ℚ) [(100, 0.3), (300, 0.5)] = 0.5) := by
  refine ⟨fun x => rfl, fun x p => rfl, ?_, ?_, ?_, ?_, ?_, ?_⟩
  · intro x curve p rest hlen hs hx
    match curve, hlen with
    | a :: b :: L, _ =>
      simp only [interpolate_curve]
      rw [hs]
      dsimp only
      rw [if_pos hx]
  · intro x curve p rest hlen hs hp hlast
    match curve, hlen with
    | a :: b :: L, _ =>
      simp only [interpolate_curve]
      rw [hs]
      dsimp only
      rw [if_neg (not_le.2 hp), if_pos hlast]
  · intro x curve p rest A B u w hlen hs hdec hp hu hw
    match curve, hlen with
    | a :: b :: L, _ =>
      simp only [interpolate_curve]
      rw [hs]
      dsimp only
      have hsorted : (p :: rest).Pairwise (fun q r : ℚ × ℚ => q.1 ≤ r.1) := by
        rw [← hs]
        exact sortPairs_fst_sorted _
      have hwmem : w ∈ p :: rest := by
        rw [hdec]
        exact List.mem_append_right _ (by simp)
      have hlast : w.1 ≤ (rest.getLastD p).1 :=
        pairwise_fst_le_getLastD p rest hsorted w hwmem
      rw [if_neg (not_le.2 hp), if_neg (not_le.2 (by linarith))]
      cases A with
      | nil =>
        have hdec2 : p = u ∧ rest = w :: B := by
          have h2 := hdec
          simp only [List.nil_append, List.cons.injEq] at h2
          exact h2
        obtain ⟨rfl, hrest⟩ := hdec2
        rw [hrest]
        unfold interpGo
        rw [if_pos hw]
      | cons a0 A2 =>
        have hdec2 : p = a0 ∧ rest = A2 ++ u :: w :: B := by
          have h2 := hdec
          simp only [List.cons_append, List.cons.injEq] at h2
          exact h2
        obtain ⟨rfl, hrest⟩ := hdec2
        rw [hrest]
        rw [hrest] at hsorted
        have hA2 : ∀ q ∈ A2, q.1 ≤ x := by
          intro q hq
          have h3 := (List.pairwise_append.1 (List.pairwise_cons.1 hsorted).2).2.2 q hq u
            (by simp)
          linarith
        exact interpGo_append x A2 p u w B hA2 hu hw
  · norm_num [DragModel.custom, interpolate_curve, sortPairs, List.insertionSort,
      List.orderedInsert, pairLex, interpGo, linear_interpolate, List.getLastD]
  · norm_num [DragModel.custom, interpolate_curve, sortPairs, List.insertionSort,
      List.orderedInsert, pairLex, interpGo, linear_interpolate, List.getLastD]
  · norm_num [DragModel.custom, interpolate_curve, sortPairs, List.insertionSort,
      List.orderedInsert, pairLex, interpGo, linear_interpolate, List.getLastD]

/-- Witness for C5: the bracketing-interpolation clause at the spec's example
curve and query 200. -/
theorem C5_custom_curve_witness :
    interpolate_curve (200 : ℚ) [(100, 0.3), (300, 0.5)] =
      linear_interpolate (200 : ℚ) 100 300 0.3 0.5 :=
  C5_custom_curve.2.2.2.2.1 200 [(100, 0.3), (300, 0.5)] (100, 0.3) [(300, 0.5)] [] []
    (100, 0.3) (300, 0.5) (by norm_num)
    (by norm_num [sortPairs, List.insertionSort, List.orderedInsert, pairLex])
    rfl (by norm_num) (by norm_num) (by norm_num)

/-- Counterexample for C5 as stated: on the curve `[(100, 0.3), (100, 0.5)]`
the query `v = 100` is at (hence at-or-above) the last velocity, but the code
returns the first point's Cd 0.3 because the `v ≤ first` check fires first —
not the last point's Cd 0.5 demanded by the claim. -/
theorem C5_duplicate_velocity_counterexample :
    DragModel.custom (100 : ℚ) [(100, 0.3), (100, 0.5)] = 0.3 ∧
    DragModel.custom (100 : ℚ) [(100, 0.3), (100, 0.5)] ≠ 0.5 := by
  have h : DragModel.custom (100 : ℚ) [(100, 0.3), (100, 0.5)] = 0.3 := by
    norm_num [DragModel.custom, interpolate_curve, sortPairs, List.insertionSort,
      List.orderedInsert, pairLex, interpGo, linear_interpolate, List.getLastD]
  refine ⟨h, ?_⟩
  rw [h]
  norm_num

/-! Helper lemmas for the RK4 integrator. -/

theorem derivative_noDrag (p : Projectile ℝ) (lat ar : ℝ) (hp : p.projectile_type ≠ "rocket")
    (s : St) (t : ℝ) : derivative p 0 0 0 false lat ar s t = ⟨s.vx, s.vy, 0, -GRAVITY⟩ := by
  have hc : ¬(p.projectile_type = "rocket" ∧ t < p.burn_time) := fun hc => hp hc.1
  simp only [derivative, hc, if_false, Bool.false_eq_true, mul_zero, zero_mul, neg_zero,
    zero_div, sub_zero, ite_self]

theorem rk4_noDrag (p : Projectile ℝ) (lat ar : ℝ) (hp : p.projectile_type ≠ "rocket")
    (s : St) (t dt : ℝ) :
    rk4 p 0 0 0 false lat ar s t dt =
      ⟨s.x + dt * s.vx, s.y + dt * s.vy - GRAVITY * dt ^ 2 / 2, s.vx, s.vy - GRAVITY * dt⟩ := by
  simp only [rk4, derivative_noDrag p lat ar hp, stAxpy]
  simp only [St.mk.injEq]
  refine ⟨by ring, by ring, by ring, by ring⟩

theorem timeStep_fast (s : St) (hvx : s.vx = 0) (hvy : 100000 ≤ s.vy) :
    timeStep s = 0.001 := by
  have hv0 : (0 : ℝ) < s.vy := lt_of_lt_of_le (by norm_num) hvy
  have hh : hypot s.vx s.vy = s.vy := by
    rw [hvx]
    unfold hypot
    rw [show (0 : ℝ) ^ 2 + s.vy ^ 2 = s.vy ^ 2 by ring, Real.sqrt_sq hv0.le]
  unfold timeStep
  rw [hh, max_eq_right (by linarith : (100 : ℝ) ≤ s.vy)]
  rw [show (0.1 : ℝ) * (1000 / s.vy) = 100 / s.vy by ring]
  have h1 : (100 : ℝ) / s.vy ≤ 0.001 := by
    rw [div_le_iff hv0]
    linarith
  rw [min_eq_right (by linarith : (100 : ℝ) / s.vy ≤ 0.1), max_eq_left h1]

theorem trajLoop_measure_decr (s : St) (t : ℝ) (ht : t < 120) :
    ((120000 : ℤ) - ⌊1000 * (t + timeStep s)⌋).toNat <
      ((120000 : ℤ) - ⌊1000 * t⌋).toNat := by
  have hdt : (0.001 : ℝ) ≤ timeStep s := le_max_left _ _
  have h1 : ⌊1000 * t⌋ + 1 ≤ ⌊1000 * (t + timeStep s)⌋ := by
    calc ⌊1000 * t⌋ + 1 = ⌊(1000 * t : ℝ) + (1 : ℤ)⌋ := by rw [Int.floor_add_int]
    _ ≤ ⌊1000 * (t + timeStep s)⌋ := Int.floor_le_floor (by push_cast; nlinarith)
  have h2 : ⌊(1000 : ℝ) * t⌋ < 120000 := Int.floor_lt.2 (by push_cast; nlinarith)
  omega

theorem trajLoop_length_le (p : Projectile ℝ) (ad wx wy : ℝ) (cor : Bool) (lat ar : ℝ) :
    ∀ (N : ℕ) (s : St) (t : ℝ), ((120000 : ℤ) - ⌊1000 * t⌋).toNat ≤ N →
      (trajLoop p ad wx wy cor lat ar s t).length ≤ N := by
  intro N
  induction N with
  | zero =>
    intro s t hN
    by_cases h : s.y ≥ 0 ∧ t < 120
    · exfalso
      have h2 : ⌊(1000 : ℝ) * t⌋ < 120000 := Int.floor_lt.2 (by push_cast; nlinarith [h.2])
      omega
    · rw [trajLoop.eq_def]
      dsimp only
      rw [dif_neg h]
      simp
  | succ N ih =>
    intro s t hN
    by_cases h : s.y ≥ 0 ∧ t < 120
    · rw [trajLoop.eq_def]
      dsimp only
      rw [dif_pos h]
      simp only [List.length_cons]
      have hdec := trajLoop_measure_decr s t h.2
      have hrec := ih (rk4 p ad wx wy cor lat ar s t (timeStep s)) (t + timeStep s)
        (by omega)
      omega
    · rw [trajLoop.eq_def]
      dsimp only
      rw [dif_neg h]
      simp

theorem trajLoop_time_lt (p : Projectile ℝ) (ad wx wy : ℝ) (cor : Bool) (lat ar : ℝ) :
    ∀ (N : ℕ) (s : St) (t : ℝ), ((120000 : ℤ) - ⌊1000 * t⌋).toNat ≤ N →
      ∀ q ∈ trajLoop p ad wx wy cor lat ar s t, q.t < 120 := by
  intro N
  induction N with
  | zero =>
    intro s t hN q hq
    by_cases h : s.y ≥ 0 ∧ t < 120
    · exfalso
      have h2 : ⌊(1000 : ℝ) * t⌋ < 120000 := Int.floor_lt.2 (by push_cast; nlinarith [h.2])
      omega
    · rw [trajLoop.eq_def] at hq
      dsimp only at hq
      rw [dif_neg h] at hq
      simp at hq
  | succ N ih =>
    intro s t hN q hq
    by_cases h : s.y ≥ 0 ∧ t < 120
    · rw [trajLoop.eq_def] at hq
      dsimp only at hq
      rw [dif_pos h] at hq
      rcases List.mem_cons.1 hq with rfl | hq2
      · exact h.2
      · have hdec := trajLoop_measure_decr s t h.2
        exact ih (rk4 p ad wx wy cor lat ar s t (timeStep s)) (t + timeStep s)
          (by omega) q hq2
    · rw [trajLoop.eq_def] at hq
      dsimp only at hq
      rw [dif_neg h] at hq
      simp at hq

theorem trajLoop_noDrag_len (p : Projectile ℝ) (lat ar : ℝ)
    (hp : p.projectile_type ≠ "rocket") :
    ∀ (k n : ℕ) (s : St) (t : ℝ), s.vx = 0 → 0 ≤ s.y →
      s.vy = 1000000 - GRAVITY / 1000 * (n : ℝ) → t = (n : ℝ) / 1000 → n + k ≤ 100001 →
      k ≤ (trajLoop p 0 0 0 false lat ar s t).length := by
  intro k
  induction k with
  | zero =>
    intro n s t _ _ _ _ _
    exact Nat.zero_le _
  | succ k ih =>
    intro n s t hvx hy hvy ht hnk
    have hg : GRAVITY = 9.80665 := rfl
    have hn : (n : ℝ) ≤ 100000 := by
      have h0 : n ≤ 100000 := by omega
      exact_mod_cast h0
    have hnn : (0 : ℝ) ≤ (n : ℝ) := Nat.cast_nonneg n
    have hvyb : 100000 ≤ s.vy := by rw [hvy, hg]; linarith
    have htlt : t < 120 := by rw [ht]; linarith
    rw [trajLoop.eq_def]
    dsimp only
    rw [dif_pos ⟨hy, htlt⟩]
    simp only [List.length_cons]
    rw [timeStep_fast s hvx hvyb, rk4_noDrag p lat ar hp]
    have hy2 : (0 : ℝ) ≤ s.y + 0.001 * s.vy - GRAVITY * 0.001 ^ 2 / 2 := by
      rw [hg]
      nlinarith
    have hvy2 : s.vy - GRAVITY * 0.001 = 1000000 - GRAVITY / 1000 * ((n + 1 : ℕ) : ℝ) := by
      rw [hvy]
      push_cast
      ring
    have ht2 : t + 0.001 = ((n + 1 : ℕ) : ℝ) / 1000 := by
      rw [ht]
      push_cast
      ring
    have happ := ih (n + 1)
      ⟨s.x + 0.001 * s.vx, s.y + 0.001 * s.vy - GRAVITY * 0.001 ^ 2 / 2, s.vx,
       s.vy - GRAVITY * 0.001⟩ (t + 0.001) hvx hy2 hvy2 ht2 (by omega)
    omega

/-- Counterexample for C1 as stated: at a finite input with zero air density
(pressure 2.3087484 hPa, temperature 0 °C, humidity 10000 %), a vertical launch
at 10⁶ m/s keeps the speed above 10⁵ m/s, pinning the step at `dtMin = 0.001`,
so the loop appends more than 10000 samples — no step cap around 10000
exists. -/
theorem C1_step_cap_counterexample :
    10000 < (calculate_trajectory 1 0.01 "G7" 1000000 90 0 0 2.3087484 10000 0 0 false 45
      "bullet" 0 0 none).length := by
  have hzero : calculate_air_densityR 0 0 2.3087484 10000 = 0 := by
    simp only [calculate_air_densityR]
    norm_num [Real.rpow_zero]
  have hrad : radians 90 = Real.pi / 2 := by unfold radians; ring
  simp only [calculate_trajectory, Environment.make]
  rw [hzero, hrad, Real.cos_pi_div_two, Real.sin_pi_div_two]
  simp only [zero_mul, mul_zero, mul_one]
  have hlen := trajLoop_noDrag_len
    (Projectile.make 1 0.01 "G7" 1000000 "bullet" [(0, 0)]
      (if ("bullet" : String) = "rocket" then 0 else 0) none) 45 (Real.pi / 2)
    (by decide) 10001 0 ⟨0, 0, 0, 1000000⟩ 0 rfl le_rfl (by norm_num) (by norm_num) (by omega)
  omega

/-- C8 (confirmed): while a rocket burns (`t < burnTime`) the derivative adds
to the thrust-free derivative exactly the acceleration
`thrust(t)/mass(t)` directed along `angle_rad` at `t = 0` and along
`atan2(vy, vx)` for any other `t`; at `t ≥ burnTime` no thrust is added. -/
theorem C8_thrust_direction (p : Projectile ℝ) (air_density wind_x wind_y : ℝ)
    (coriolis : Bool) (latitude angle_rad : ℝ) (s : St) (t : ℝ) :
    (p.projectile_type = "rocket" → t < p.burn_time →
      derivative p air_density wind_x wind_y coriolis latitude angle_rad s t =
        ⟨(derivative_nothrust p air_density wind_x wind_y coriolis latitude s t).x,
         (derivative_nothrust p air_density wind_x wind_y coriolis latitude s t).y,
         (derivative_nothrust p air_density wind_x wind_y coriolis latitude s t).vx +
           get_thrust p t * Real.cos (if t = 0 then angle_rad else atan2 s.vy s.vx) /
             get_mass p t,
         (derivative_nothrust p air_density wind_x wind_y coriolis latitude s t).vy +
           get_thrust p t * Real.sin (if t = 0 then angle_rad else atan2 s.vy s.vx) /
             get_mass p t⟩) ∧
    (p.burn_time ≤ t →
      derivative p air_density wind_x wind_y coriolis latitude angle_rad s t =
        derivative_nothrust p air_density wind_x wind_y coriolis latitude s t) := by
  constructor
  · intro hr hb
    simp only [derivative, derivative_nothrust, if_pos (And.intro hr hb)]
    by_cases hcor : coriolis = true
    · simp only [if_pos hcor, St.mk.injEq]
      exact ⟨trivial, trivial, by ring, by ring⟩
    · simp only [if_neg hcor, St.mk.injEq]
  · intro hb
    have hc : ¬(p.projectile_type = "rocket" ∧ t < p.burn_time) := fun hc =>
      absurd hc.2 (not_lt.2 hb)
    simp only [derivative, derivative_nothrust, if_neg hc]

/-- Witness for C8 at a burning rocket (`t = 0.5 < 1.2`) and after burnout
(`t = 2 ≥ 1.2`). -/
theorem C8_thrust_direction_witness :
    (derivative rocketR 1.225 0 0 false 45 0.3 ⟨0, 0, 50, 50⟩ 0.5 =
      ⟨(derivative_nothrust rocketR 1.225 0 0 false 45 ⟨0, 0, 50, 50⟩ 0.5).x,
       (derivative_nothrust rocketR 1.225 0 0 false 45 ⟨0, 0, 50, 50⟩ 0.5).y,
       (derivative_nothrust rocketR 1.225 0 0 false 45 ⟨0, 0, 50, 50⟩ 0.5).vx +
         get_thrust rocketR 0.5 *
           Real.cos (if (0.5 : ℝ) = 0 then 0.3 else atan2 50 50) / get_mass rocketR 0.5,
       (derivative_nothrust rocketR 1.225 0 0 false 45 ⟨0, 0, 50, 50⟩ 0.5).vy +
         get_thrust rocketR 0.5 *
           Real.sin (if (0.5 : ℝ) = 0 then 0.3 else atan2 50 50) / get_mass rocketR 0.5⟩) ∧
    (derivative rocketR 1.225 0 0 false 45 0.3 ⟨0, 0, 50, 50⟩ 2 =
      derivative_nothrust rocketR 1.225 0 0 false 45 ⟨0, 0, 50, 50⟩ 2) :=
  ⟨(C8_thrust_direction rocketR 1.225 0 0 false 45 0.3 ⟨0, 0, 50, 50⟩ 0.5).1 rfl
      (by norm_num [rocketR]),
   (C8_thrust_direction rocketR 1.225 0 0 false 45 0.3 ⟨0, 0, 50, 50⟩ 2).2
      (by norm_num [rocketR])⟩

/-! Helper lemmas for the part_000 Euler loop and the exception-aware
integrator. -/

theorem part000_eulerStep_noDrag (dc area mass lat dt : ℝ) (s : St) :
    part000_eulerStep dc area mass 0 0 0 false lat dt s =
      ⟨s.x + s.vx * dt, s.y + (s.vy - GRAVITY * dt) * dt, s.vx, s.vy - GRAVITY * dt⟩ := by
  simp only [part000_eulerStep, Bool.false_eq_true, if_false, mul_zero, zero_mul, neg_zero,
    zero_div, sub_zero, ite_self, St.mk.injEq]
  refine ⟨by ring, by ring, by ring, by ring⟩

theorem part000_loop_noDrag (dc area mass lat : ℝ) :
    ∀ (k n fuel : ℕ) (s : St) (t : ℝ), s.vx = 0 → 0 ≤ s.y →
      s.vy = 10000 - GRAVITY * 0.1 * (n : ℝ) → t = 0.1 * (n : ℝ) →
      k ≤ fuel → n + k ≤ 10001 →
      k ≤ (part000_loop dc area mass 0 0 0 false lat 0.1 fuel s t).length ∧
      (1 ≤ k → ∃ q ∈ part000_loop dc area mass 0 0 0 false lat 0.1 fuel s t,
        q.t = t + 0.1 * (k : ℝ)) := by
  intro k
  induction k with
  | zero =>
    intro n fuel s t _ _ _ _ _ _
    exact ⟨Nat.zero_le _, fun h => absurd h (by omega)⟩
  | succ k ih =>
    intro n fuel s t hvx hy hvy ht hkf hnk
    obtain ⟨f, rfl⟩ : ∃ f, fuel = f + 1 := ⟨fuel - 1, by omega⟩
    have hg : GRAVITY = 9.80665 := rfl
    have hn : (n : ℝ) ≤ 10000 := by
      have h0 : n ≤ 10000 := by omega
      exact_mod_cast h0
    have hnn : (0 : ℝ) ≤ (n : ℝ) := Nat.cast_nonneg n
    have hvy2pos : (0 : ℝ) < s.vy - GRAVITY * 0.1 := by rw [hvy, hg]; linarith
    have hy2 : (0 : ℝ) ≤ s.y + (s.vy - GRAVITY * 0.1) * 0.1 := by nlinarith
    simp only [part000_loop]
    rw [if_pos hy, part000_eulerStep_noDrag]
    dsimp only
    rw [if_pos hy2, List.singleton_append]
    have hvy3 : s.vy - GRAVITY * 0.1 = 10000 - GRAVITY * 0.1 * ((n + 1 : ℕ) : ℝ) := by
      rw [hvy]
      push_cast
      ring
    have ht3 : t + 0.1 = 0.1 * ((n + 1 : ℕ) : ℝ) := by
      rw [ht]
      push_cast
      ring
    have hrec := ih (n + 1) f
      ⟨s.x + s.vx * 0.1, s.y + (s.vy - GRAVITY * 0.1) * 0.1, s.vx, s.vy - GRAVITY * 0.1⟩
      (t + 0.1) hvx hy2 hvy3 ht3 (by omega) (by omega)
    constructor
    · simp only [List.length_cons]
      omega
    · intro _
      by_cases hk : 1 ≤ k
      · obtain ⟨q, hqmem, hqt⟩ := hrec.2 hk
        refine ⟨q, List.mem_cons_of_mem _ hqmem, ?_⟩
        rw [hqt]
        push_cast
        ring
      · have hk0 : k = 0 := by omega
        refine ⟨_, List.mem_cons_self _ _, ?_⟩
        show t + 0.1 = t + 0.1 * ((k + 1 : ℕ) : ℝ)
        rw [hk0]
        push_cast
        ring


theorem thrustPartE_isSome (p : Projectile ℝ) (m ar : ℝ) (s : St) (t : ℝ)
    (hm0 : m ≠ 0) (hkeys : (p.thrust_curve.map Prod.fst).Nodup) (a b : ℝ) :
    (if p.projectile_type = "rocket" ∧ t < p.burn_time then
       (get_thrust? p t).bind fun thrust =>
         (div? (thrust * Real.cos (if t = 0 then ar else atan2 s.vy s.vx)) m).bind fun dx =>
           (div? (thrust * Real.sin (if t = 0 then ar else atan2 s.vy s.vx)) m).map fun dy =>
             ((a + dx, b + dy) : ℝ × ℝ)
     else some (a, b)).isSome := by
  split
  · obtain ⟨th, hth⟩ := Option.isSome_iff_exists.1 (get_thrust?_isSome p t hkeys)
    rw [hth, Option.some_bind]
    simp only [div?, if_neg hm0, Option.some_bind, Option.map_some']
    rfl
  · rfl

theorem derivativeE_isSome (p : Projectile ℝ) (ad wx wy : ℝ) (cor : Bool) (lat ar : ℝ)
    (s : St) (t : ℝ) (hm : 0 < p.mass) (him : p.initial_mass = p.mass)
    (hbt : p.projectile_type = "rocket" → 0 < p.burn_time)
    (hkeys : (p.thrust_curve.map Prod.fst).Nodup) :
    (derivativeE p ad wx wy cor lat ar s t).isSome := by
  simp only [derivativeE]
  obtain ⟨dc, hdc⟩ := Option.isSome_iff_exists.1
    (drag_coefficient?_isSome p (hypot (s.vx - wx) (s.vy - wy)))
  rw [hdc, Option.some_bind]
  obtain ⟨m, hmm⟩ := Option.isSome_iff_exists.1 (get_mass?_isSome p t hbt)
  have hm0 : m ≠ 0 := by
    rw [get_mass?_value p t him m hmm]
    exact hm.ne'
  rw [hmm, Option.some_bind]
  by_cases hv : hypot (s.vx - wx) (s.vy - wy) > 0
  · rw [if_pos hv, if_pos hv]
    have hden : m * hypot (s.vx - wx) (s.vy - wy) ≠ 0 := mul_ne_zero hm0 (ne_of_gt hv)
    simp only [div?, if_neg hden, Option.some_bind, Option.map_some']
    rw [Option.isSome_map']
    exact thrustPartE_isSome p m ar s t hm0 hkeys _ _
  · rw [if_neg hv, if_neg hv]
    simp only [Option.some_bind]
    rw [Option.isSome_map']
    exact thrustPartE_isSome p m ar s t hm0 hkeys _ _

theorem rk4E_isSome (p : Projectile ℝ) (ad wx wy : ℝ) (cor : Bool) (lat ar : ℝ)
    (s : St) (t dt : ℝ) (hm : 0 < p.mass) (him : p.initial_mass = p.mass)
    (hbt : p.projectile_type = "rocket" → 0 < p.burn_time)
    (hkeys : (p.thrust_curve.map Prod.fst).Nodup) :
    (rk4E p ad wx wy cor lat ar s t dt).isSome := by
  unfold rk4E
  obtain ⟨k1, h1⟩ := Option.isSome_iff_exists.1
    (derivativeE_isSome p ad wx wy cor lat ar s t hm him hbt hkeys)
  rw [h1, Option.some_bind]
  obtain ⟨k2, h2⟩ := Option.isSome_iff_exists.1
    (derivativeE_isSome p ad wx wy cor lat ar (stAxpy (0.5 * dt) s k1) (t + 0.5 * dt)
      hm him hbt hkeys)
  rw [h2, Option.some_bind]
  obtain ⟨k3, h3⟩ := Option.isSome_iff_exists.1
    (derivativeE_isSome p ad wx wy cor lat ar (stAxpy (0.5 * dt) s k2) (t + 0.5 * dt)
      hm him hbt hkeys)
  rw [h3, Option.some_bind]
  obtain ⟨k4, h4⟩ := Option.isSome_iff_exists.1
    (derivativeE_isSome p ad wx wy cor lat ar (stAxpy dt s k3) (t + dt) hm him hbt hkeys)
  rw [h4]
  rfl

theorem trajLoopE_isSome (p : Projectile ℝ) (ad wx wy : ℝ) (cor : Bool) (lat ar : ℝ)
    (hm : 0 < p.mass) (him : p.initial_mass = p.mass)
    (hbt : p.projectile_type = "rocket" → 0 < p.burn_time)
    (hkeys : (p.thrust_curve.map Prod.fst).Nodup) :
    ∀ (N : ℕ) (s : St) (t : ℝ), ((120000 : ℤ) - ⌊1000 * t⌋).toNat ≤ N →
      (trajLoopE p ad wx wy cor lat ar s t).isSome := by
  intro N
  induction N with
  | zero =>
    intro s t hN
    by_cases h : s.y ≥ 0 ∧ t < 120
    · exfalso
      have h2 : ⌊(1000 : ℝ) * t⌋ < 120000 := Int.floor_lt.2 (by push_cast; nlinarith [h.2])
      omega
    · rw [trajLoopE.eq_def]
      dsimp only
      rw [dif_neg h]
      rfl
  | succ N ih =>
    intro s t hN
    by_cases h : s.y ≥ 0 ∧ t < 120
    · rw [trajLoopE.eq_def]
      dsimp only
      rw [dif_pos h]
      obtain ⟨s2, hs2⟩ := Option.isSome_iff_exists.1
        (rk4E_isSome p ad wx wy cor lat ar s t (timeStep s) hm him hbt hkeys)
      rw [hs2, Option.some_bind]
      have hdec := trajLoop_measure_decr s t h.2
      rw [Option.isSome_map']
      exact ih s2 (t + timeStep s) (by omega)
    · rw [trajLoopE.eq_def]
      dsimp only
      rw [dif_neg h]
      rfl

/-- C2 (corrected): with the amendments that a rocket's burn time is positive
(deepseek `get_mass` divides by `burn_time` when a rocket is queried at
`time ≤ burn_time`, and the GUI's burn-time spin box allows 0) and that the
v344 variant is given a non-empty thrust curve (its `get_thrust` indexes
`times[0]` unguarded), every engine operation — dragCoefficient, get_thrust,
get_mass, airDensity and integrate — returns a value and never throws on
finite numeric input satisfying the calling layer's preconditions.  Dict keys
are unique by construction; the airDensity and integrate clauses carry the
calling layer's temperature and pressure ranges as the nonzero-denominator
conditions they imply.  `timeStepE_eq` (below the witness) records that the
adaptive-step computation's only division can likewise never throw. -/
theorem C2_engine_total :
    (∀ (p : Projectile ℚ) (v t : ℚ), 0 < p.mass → 0 ≤ p.burn_time →
      (p.projectile_type = "rocket" → 0 < p.burn_time) →
      (p.thrust_curve.map Prod.fst).Nodup →
      (drag_coefficient? p v).isSome ∧ (get_thrust? p t).isSome ∧
      (get_mass? p t).isSome ∧ (p.thrust_curve ≠ [] → (get_thrustV344? p t).isSome)) ∧
    (∀ (pow10 expF : ℚ → ℚ) (alt temp pres hum : ℚ), temp + 237.3 ≠ 0 →
      temp + 273.15 ≠ 0 → pres ≠ 0 →
      (calculate_air_density? pow10 expF alt temp pres hum).isSome) ∧
    (∀ (mass diameter : ℝ) (drag_model : String)
        (velocity angle altitude temperature pressure humidity wind_speed wind_angle : ℝ)
        (coriolis : Bool) (latitude : ℝ) (projectile_type : String)
        (thrust burn_time_input : ℝ) (custom_drag_curve : Option (List (ℝ × ℝ))),
      0 < mass → (projectile_type = "rocket" → 0 < burn_time_input) →
      temperature + 237.3 ≠ 0 → temperature + 273.15 ≠ 0 → pressure ≠ 0 →
      (calculate_trajectoryE mass diameter drag_model velocity angle altitude temperature
        pressure humidity wind_speed wind_angle coriolis latitude projectile_type thrust
        burn_time_input custom_drag_curve).isSome) := by
  refine ⟨?_, ?_, ?_⟩
  · intro p v t hmass hbt0 hrocket hkeys
    exact ⟨drag_coefficient?_isSome p v, get_thrust?_isSome p t hkeys,
      get_mass?_isSome p t hrocket, fun hne => get_thrustV344?_isSome p t hkeys hne⟩
  · intro pow10 expF alt temp pres hum h1 h2 h3
    exact calculate_air_density?_isSome pow10 expF alt temp pres hum h1 h2 h3
  · intro mass diameter drag_model velocity angle altitude temperature pressure humidity
      wind_speed wind_angle coriolis latitude projectile_type thrust burn_time_input
      custom_drag_curve hmass hrocket h1 h2 h3
    simp only [calculate_trajectoryE]
    obtain ⟨ad, had⟩ := Option.isSome_iff_exists.1
      (calculate_air_density?_isSome (fun e => (10 : ℝ) ^ e) Real.exp altitude temperature
        pressure humidity h1 h2 h3)
    rw [had, Option.some_bind]
    refine trajLoopE_isSome _ ad _ _ coriolis latitude _ hmass rfl ?_ ?_ 120000 _ 0
      (by norm_num)
    · intro hr
      simp only [Projectile.make] at hr ⊢
      rw [if_pos hr]
      exact hrocket hr
    · simp [Projectile.make]

/-- Witness for C2 at a concrete rocket with the spec's thrust curve, a
standard atmosphere, and a full Scenario-A-style integrate call made powered
with burn time 1.2. -/
theorem C2_engine_total_witness :
    ((drag_coefficient? rocketCurveQ 200).isSome ∧ (get_thrust? rocketCurveQ 0.6).isSome ∧
     (get_mass? rocketCurveQ 0.6).isSome ∧ (get_thrustV344? rocketCurveQ 0.6).isSome) ∧
    (calculate_air_density? constOneQ constOneQ 0 15 1013.25 50).isSome ∧
    (calculate_trajectoryE 0.0095 0.00782 "G7" 830 45 0 15 1013.25 50 0 0 false 45 "rocket"
      1000 1.2 none).isSome := by
  have h1 := C2_engine_total.1 rocketCurveQ 200 0.6 (by norm_num [rocketCurveQ])
    (by norm_num [rocketCurveQ]) (fun _ => by norm_num [rocketCurveQ])
    (by norm_num [rocketCurveQ])
  refine ⟨⟨h1.1, h1.2.1, h1.2.2.1, h1.2.2.2 (by simp [rocketCurveQ])⟩, ?_, ?_⟩
  · exact C2_engine_total.2.1 constOneQ constOneQ 0 15 1013.25 50 (by norm_num) (by norm_num)
      (by norm_num)
  · exact C2_engine_total.2.2 0.0095 0.00782 "G7" 830 45 0 15 1013.25 50 0 0 false 45
      "rocket" 1000 1.2 none (by norm_num) (fun _ => by norm_num) (by norm_num) (by norm_num)
      (by norm_num)

/-- The adaptive-step computation's only division is by `max(100, |v|) ≥ 100`,
so it never raises: the exception-aware step always equals the total one. -/
theorem timeStepE_eq (s : St) : timeStepE s = some (timeStep s) := by
  have hpos : (0 : ℝ) < max 100 (hypot s.vx s.vy) := lt_of_lt_of_le (by norm_num)
    (le_max_left _ _)
  simp only [timeStepE, timeStep, div?, if_neg hpos.ne', Option.map_some']

/-- C1 (corrected): the deepseek RK4 loop runs while `y ≥ 0 ∧ t < 120` — no
step cap, no target-elevation offset — and those two conditions do bound it:
at most 120000 samples (the `dtMin = 0.001` clamp) with every sample's `t`
below 120 s.  The `part_000` Euler loop the claim also cites runs while
`y ≥ 0` alone, taking fixed 0.1 s steps with no time or step cap: at a zero-
drag vertical 10⁴ m/s launch it provably emits more than 10000 samples and a
sample with `t > 120` s, so neither the claimed ~10000-step cap nor the 120 s
cap holds there, and nothing but y-descent bounds its running time. -/
theorem C1_loop_bounds :
    (∀ (mass diameter : ℝ) (drag_model : String)
        (velocity angle altitude temperature pressure humidity wind_speed wind_angle : ℝ)
        (coriolis : Bool) (latitude : ℝ) (projectile_type : String)
        (thrust burn_time_input : ℝ) (custom_drag_curve : Option (List (ℝ × ℝ))),
      (calculate_trajectory mass diameter drag_model velocity angle altitude temperature
        pressure humidity wind_speed wind_angle coriolis latitude projectile_type thrust
        burn_time_input custom_drag_curve).length ≤ 120000 ∧
      ∀ q ∈ calculate_trajectory mass diameter drag_model velocity angle altitude temperature
        pressure humidity wind_speed wind_angle coriolis latitude projectile_type thrust
        burn_time_input custom_drag_curve, q.t < 120) ∧
    10000 < (part000_calculate_trajectory 12000 10000 90 0.3 0.005 3.2 0 0 0 false
      45).length ∧
    ∃ q ∈ part000_calculate_trajectory 12000 10000 90 0.3 0.005 3.2 0 0 0 false 45,
      120 < q.t := by
  have hrad : radians 90 = Real.pi / 2 := by unfold radians; ring
  refine ⟨?_, ?_, ?_⟩
  · intro mass diameter drag_model velocity angle altitude temperature pressure humidity
      wind_speed wind_angle coriolis latitude projectile_type thrust burn_time_input
      custom_drag_curve
    simp only [calculate_trajectory]
    constructor
    · apply trajLoop_length_le _ _ _ _ _ _ _ 120000
      norm_num
    · apply trajLoop_time_lt _ _ _ _ _ _ _ 120000
      norm_num
  · simp only [part000_calculate_trajectory]
    rw [hrad, Real.cos_pi_div_two, Real.sin_pi_div_two]
    simp only [zero_mul, mul_zero, mul_one]
    have h := part000_loop_noDrag 0.3 0.005 3.2 45 10001 0 12000 ⟨0, 0, 0, 10000⟩ 0 rfl
      le_rfl (by push_cast; ring) (by push_cast; ring) (by omega) (by omega)
    have h1 := h.1
    omega
  · simp only [part000_calculate_trajectory]
    rw [hrad, Real.cos_pi_div_two, Real.sin_pi_div_two]
    simp only [zero_mul, mul_zero, mul_one]
    have h := part000_loop_noDrag 0.3 0.005 3.2 45 10001 0 12000 ⟨0, 0, 0, 10000⟩ 0 rfl
      le_rfl (by push_cast; ring) (by push_cast; ring) (by omega) (by omega)
    obtain ⟨q, hq, hqt⟩ := h.2 (by omega)
    refine ⟨q, hq, ?_⟩
    rw [hqt]
    norm_num

/-- C3 (corrected): the deepseek RK4 loop appends the PRE-update state, so its
first trajectory sample is the launch state `(0, 0, 0, v₀·cosθ, v₀·sinθ, v₀)`
whenever `v₀ > 0`.  The `part_000` Euler loop the claim also cites advances
the state first and appends only POST-update states: its first sample, when
one exists, is the state after one 0.1 s Euler step, and when that step
already leaves `y < 0` the returned trajectory is empty (see the
counterexample at a 0° launch). -/
theorem C3_first_sample :
    (∀ (mass diameter : ℝ) (drag_model : String)
        (velocity angle altitude temperature pressure humidity wind_speed wind_angle : ℝ)
        (coriolis : Bool) (latitude : ℝ) (projectile_type : String)
        (thrust burn_time_input : ℝ) (custom_drag_curve : Option (List (ℝ × ℝ))),
      0 < velocity →
      (calculate_trajectory mass diameter drag_model velocity angle altitude temperature
        pressure humidity wind_speed wind_angle coriolis latitude projectile_type thrust
        burn_time_input custom_drag_curve).head? =
        some ⟨0, 0, 0, velocity * Real.cos (radians angle), velocity * Real.sin (radians angle),
          velocity⟩) ∧
    (∀ (fuel : ℕ)
        (initial_velocity angle_degrees drag_coeff area mass air_density wind_speed
          wind_angle : ℝ) (coriolis : Bool) (latitude : ℝ),
      (part000_calculate_trajectory (fuel + 1) initial_velocity angle_degrees drag_coeff area
        mass air_density wind_speed wind_angle coriolis latitude).head? =
        (let s2 := part000_eulerStep drag_coeff area mass air_density
            (wind_speed * Real.cos (radians wind_angle))
            (wind_speed * Real.sin (radians wind_angle)) coriolis latitude 0.1
            ⟨0, 0, initial_velocity * Real.cos (radians angle_degrees),
              initial_velocity * Real.sin (radians angle_degrees)⟩
         if s2.y ≥ 0 then
           some ⟨s2.x, s2.y, 0.1, s2.vx, s2.vy, Real.sqrt (s2.vx ^ 2 + s2.vy ^ 2)⟩
         else none)) := by
  constructor
  · intro mass diameter drag_model velocity angle altitude temperature pressure humidity
      wind_speed wind_angle coriolis latitude projectile_type thrust burn_time_input
      custom_drag_curve hv
    have hh : hypot (velocity * Real.cos (radians angle)) (velocity * Real.sin (radians angle))
        = velocity := by
      unfold hypot
      have h1 : (velocity * Real.cos (radians angle)) ^ 2 +
          (velocity * Real.sin (radians angle)) ^ 2 =
          velocity ^ 2 * (Real.sin (radians angle) ^ 2 + Real.cos (radians angle) ^ 2) := by
        ring
      rw [h1, Real.sin_sq_add_cos_sq, mul_one, Real.sqrt_sq hv.le]
    simp only [calculate_trajectory]
    rw [trajLoop.eq_def]
    dsimp only
    rw [dif_pos ⟨le_refl (0 : ℝ), by norm_num⟩]
    rw [List.head?_cons, hh]
  · intro fuel initial_velocity angle_degrees drag_coeff area mass air_density wind_speed
      wind_angle coriolis latitude
    simp only [part000_calculate_trajectory, part000_loop]
    rw [if_pos (le_refl (0 : ℝ))]
    by_cases hs2 : (part000_eulerStep drag_coeff area mass air_density
        (wind_speed * Real.cos (radians wind_angle))
        (wind_speed * Real.sin (radians wind_angle)) coriolis latitude 0.1
        ⟨0, 0, initial_velocity * Real.cos (radians angle_degrees),
          initial_velocity * Real.sin (radians angle_degrees)⟩).y ≥ 0
    · rw [if_pos hs2, if_pos hs2, List.singleton_append, List.head?_cons]
      norm_num
    · rw [if_neg hs2, if_neg hs2, List.nil_append]
      cases fuel with
      | zero => simp only [part000_loop, List.head?_nil]
      | succ f =>
        simp only [part000_loop]
        rw [if_neg hs2]
        simp only [List.head?_nil]

/-- Witness for C3: the deepseek part at `v₀ = 1`, `θ = 45°`, and the
`part_000` part at a concrete 45° launch with fuel 1000. -/
theorem C3_first_sample_witness :
    ((0 : ℝ) < 1 ∧
      (calculate_trajectory 1 0.01 "G7" 1 45 0 15 1013.25 50 0 0 false 45 "bullet" 0 0
        none).head? =
        some ⟨0, 0, 0, 1 * Real.cos (radians 45), 1 * Real.sin (radians 45), 1⟩) ∧
    (part000_calculate_trajectory (999 + 1) 150 45 0.3 0.005 3.2 1.225 0 0 false 45).head? =
      (let s2 := part000_eulerStep 0.3 0.005 3.2 1.225 (0 * Real.cos (radians 0))
          (0 * Real.sin (radians 0)) false 45 0.1
          ⟨0, 0, 150 * Real.cos (radians 45), 150 * Real.sin (radians 45)⟩
       if s2.y ≥ 0 then
         some ⟨s2.x, s2.y, 0.1, s2.vx, s2.vy, Real.sqrt (s2.vx ^ 2 + s2.vy ^ 2)⟩
       else none) :=
  ⟨⟨by norm_num, C3_first_sample.1 1 0.01 "G7" 1 45 0 15 1013.25 50 0 0 false 45 "bullet" 0 0
      none (by norm_num)⟩,
   C3_first_sample.2 999 150 45 0.3 0.005 3.2 1.225 0 0 false 45⟩

/-- Counterexample to C3 as stated for the cited `part_000` loop: it advances
the state before appending, so at a 0° launch the single 0.1 s Euler step
drops `y` below 0, nothing is appended, and the trajectory is empty — in
particular its first sample is not the launch state. -/
theorem C3_post_update_counterexample :
    part000_calculate_trajectory 1000 150 0 0.3 0.005 3.2 0 0 0 false 45 = [] ∧
    (part000_calculate_trajectory 1000 150 0 0.3 0.005 3.2 0 0 0 false 45).head? ≠
      some ⟨0, 0, 0, 150 * Real.cos (radians 0), 150 * Real.sin (radians 0), 150⟩ := by
  have hrad0 : radians 0 = 0 := by unfold radians; ring
  have hy : ¬((0 : ℝ) + ((0 : ℝ) + -(GRAVITY * 0.1)) * 0.1 ≥ 0) := by
    norm_num [GRAVITY]
  have hmain : part000_calculate_trajectory 1000 150 0 0.3 0.005 3.2 0 0 0 false 45 = [] := by
    simp only [part000_calculate_trajectory]
    rw [hrad0, Real.cos_zero, Real.sin_zero]
    simp only [zero_mul, mul_zero, mul_one]
    rw [show (1000 : ℕ) = 999 + 1 from rfl, part000_loop]
    dsimp only
    rw [if_pos (le_refl (0 : ℝ)), part000_eulerStep_noDrag]
    dsimp only
    rw [if_neg (by norm_num [GRAVITY] : ¬((0 : ℝ) + ((0 : ℝ) - GRAVITY * 0.1) * 0.1 ≥ 0))]
    rw [List.nil_append]
    rw [show (999 : ℕ) = 998 + 1 from rfl, part000_loop]
    dsimp only
    rw [if_neg (by norm_num [GRAVITY] : ¬((0 : ℝ) + ((0 : ℝ) - GRAVITY * 0.1) * 0.1 ≥ 0))]
  refine ⟨hmain, ?_⟩
  rw [hmain]
  simp
